import Mathlib

/-!
Verification of the garden-tracker backend's core logic: garden-bed shape
validation (`validators.py`), user data export/import (`app.py`,
`export_user_data` / `import_user_data`), and the garden-layout store
(`app.py`, `save_garden_layout`), over a shallow embedding of the Python
source.  JSON values are embedded as `JValue`; Python numbers are modelled
as rationals (no arithmetic is performed on them, only comparisons), and
Python's `bool` counts as numeric for `isinstance(x, (int, float))`, since
`bool` is a subclass of `int`.
-/

set_option maxHeartbeats 1000000

namespace GardenApp

/-- A JSON value as handled by the Python backend.  Objects are association
lists of string keys (as produced by `json.load`); `null` doubles as
Python's `None`. -/
inductive JValue where
  | null : JValue
  | bool : Bool → JValue
  | num : ℚ → JValue
  | str : String → JValue
  | arr : List JValue → JValue
  | obj : List (String × JValue) → JValue
deriving Repr

/-- Size of a JSON tree, used to drive induction over `JValue`. -/
def JValue.jsize : JValue → Nat
  | .null => 1
  | .bool _ => 1
  | .num _ => 1
  | .str _ => 1
  | .arr xs => 1 + go xs
  | .obj kvs => 1 + goObj kvs
where
  go : List JValue → Nat
    | [] => 0
    | x :: xs => JValue.jsize x + go xs
  goObj : List (String × JValue) → Nat
    | [] => 0
    | kv :: kvs => JValue.jsize kv.2 + goObj kvs

/-- Structural equality on JSON trees (Python `==` on decoded JSON values,
except that Python also identifies `True` with `1`; that cross-type case
only matters for dictionary keys and is handled by `pyKeyEq` below). -/
def JValue.beq : JValue → JValue → Bool
  | .null, b => match b with | .null => true | _ => false
  | .bool x, b => match b with | .bool y => x == y | _ => false
  | .num x, b => match b with | .num y => x == y | _ => false
  | .str x, b => match b with | .str y => x == y | _ => false
  | .arr xs, b => match b with | .arr ys => go xs ys | _ => false
  | .obj kvs, b => match b with | .obj kvs2 => goObj kvs kvs2 | _ => false
where
  go : List JValue → List JValue → Bool
    | [], [] => true
    | x :: xs, y :: ys => JValue.beq x y && go xs ys
    | _, _ => false
  goObj : List (String × JValue) → List (String × JValue) → Bool
    | [], [] => true
    | (k1, v1) :: xs, (k2, v2) :: ys => k1 == k2 && JValue.beq v1 v2 && goObj xs ys
    | _, _ => false

theorem JValue.jsize_pos : ∀ v : JValue, 1 ≤ JValue.jsize v := by
  intro v; cases v <;> simp [JValue.jsize]

theorem JValue.beq_eq_true_iff : ∀ a b : JValue, JValue.beq a b = true ↔ a = b := by
  suffices H : ∀ (n : Nat) (a b : JValue), JValue.jsize a ≤ n →
      (JValue.beq a b = true ↔ a = b) by
    intro a b; exact H (JValue.jsize a) a b le_rfl
  intro n
  induction n with
  | zero => intro a b h; have := JValue.jsize_pos a; omega
  | succ n ih =>
    intro a b h
    cases a <;> cases b <;> try (simp [JValue.beq]; done)
    case arr.arr xs ys =>
      cases xs with
      | nil => cases ys <;> simp [JValue.beq, JValue.beq.go]
      | cons x xs =>
        cases ys with
        | nil => simp [JValue.beq, JValue.beq.go]
        | cons y ys =>
          simp only [JValue.jsize, JValue.jsize.go] at h
          have hx : JValue.jsize x ≤ n := by omega
          have hxs : JValue.jsize (JValue.arr xs) ≤ n := by
            have := JValue.jsize_pos x
            simp only [JValue.jsize]
            omega
          have e1 := ih x y hx
          have e2 := ih (JValue.arr xs) (JValue.arr ys) hxs
          simp only [JValue.beq] at e2
          simp [JValue.beq, JValue.beq.go, e1, e2]
    case obj.obj xs ys =>
      cases xs with
      | nil => cases ys <;> simp [JValue.beq, JValue.beq.goObj]
      | cons kv xs =>
        cases ys with
        | nil => simp [JValue.beq, JValue.beq.goObj]
        | cons kv2 ys =>
          obtain ⟨k1, v1⟩ := kv
          obtain ⟨k2, v2⟩ := kv2
          simp only [JValue.jsize, JValue.jsize.goObj] at h
          have hv : JValue.jsize v1 ≤ n := by omega
          have hxs : JValue.jsize (JValue.obj xs) ≤ n := by
            have := JValue.jsize_pos v1
            simp only [JValue.jsize]
            omega
          have e1 := ih v1 v2 hv
          have e2 := ih (JValue.obj xs) (JValue.obj ys) hxs
          simp only [JValue.beq] at e2
          simp [JValue.beq, JValue.beq.goObj, e1, e2]

instance : DecidableEq JValue := fun a b =>
  decidable_of_iff _ (JValue.beq_eq_true_iff a b)

instance : BEq JValue := ⟨JValue.beq⟩

instance : LawfulBEq JValue where
  eq_of_beq h := (JValue.beq_eq_true_iff _ _).mp h
  rfl := (JValue.beq_eq_true_iff _ _).mpr rfl

/-- Key lookup in a decoded JSON object (Python `d[k]` / `k in d`); first
match, as Python objects decoded from JSON have unique keys. -/
def jLookup (kvs : List (String × JValue)) (k : String) : Option JValue :=
  (kvs.find? (fun p => p.fst == k)).map Prod.snd

/-- Python `k in d` for a dict: key membership (a key mapped to `null` is
still present). -/
def hasKey (kvs : List (String × JValue)) (k : String) : Bool :=
  (jLookup kvs k).isSome

/-- Python `d.get(k, default)`: the stored value (including `None`) when the
key is present, `default` otherwise.  `d.get(k)` is `jGetD kvs k .null`
since Python's default is `None`. -/
def jGetD (kvs : List (String × JValue)) (k : String) (d : JValue) : JValue :=
  (jLookup kvs k).getD d

/-- Python `d[k]` on a key known to be present (only used after an `in`
guard, mirroring the source). -/
def jIndex (kvs : List (String × JValue)) (k : String) : JValue :=
  jGetD kvs k .null

/-- Python `isinstance(x, (int, float))`.  `bool` is a subclass of `int`,
so booleans pass this check. -/
def isPyNumeric : JValue → Bool
  | .num _ => true
  | .bool _ => true
  | _ => false

/-- Numeric value of a Python number: `True` is `1` and `False` is `0`. -/
def pyNumVal : JValue → ℚ
  | .num q => q
  | .bool b => if b then 1 else 0
  | _ => 0

/-- The source's repeated pattern `isinstance(x, (int, float)) and x > 0`. -/
def isPosNum (v : JValue) : Bool :=
  isPyNumeric v && decide (0 < pyNumVal v)

/-- `GardenBedShape.list()` from `enums.py`. -/
def gardenBedShapeList : List String :=
  ["rectangle", "circle", "pill", "c-rectangle"]

/-- Inner loop of the pill branch: for each required key, check presence and
positivity in turn, returning the first error (`validators.py` lines 29-34). -/
def pillCheck (kvs : List (String × JValue)) : List String → Bool × Option String
  | [] => (true, none)
  | k :: rest =>
    if hasKey kvs k then
      if isPosNum (jIndex kvs k) then pillCheck kvs rest
      else (false, some ("Pill '" ++ k ++ "' must be a positive number."))
    else (false, some ("Pill requires '" ++ k ++ "' in shape_params."))

/-- First loop of the c-rectangle branch: presence of every required key
(`validators.py` lines 37-40). -/
def crectKeyCheck (kvs : List (String × JValue)) : List String → Option String
  | [] => none
  | k :: rest =>
    if hasKey kvs k then crectKeyCheck kvs rest
    else some ("C-rectangle requires '" ++ k ++ "' in shape_params.")

/-- `shape_params["missing_side"] in {"top", "bottom", "left", "right"}`. -/
def isValidSide (v : JValue) : Bool :=
  v == .str "top" || v == .str "bottom" || v == .str "left" || v == .str "right"

/-- `validate_bed_shape_and_params` from `validators.py`: returns
`(is_valid, error_message)`.  Each `if not C: return (False, msg)` of the
source appears here as `if C then … else (false, some msg)`. -/
def validate_bed_shape_and_params (shape : String) (shape_params : JValue) :
    Bool × Option String :=
  if shape ∈ gardenBedShapeList then
    match shape_params with
    | .obj kvs =>
      if shape == "rectangle" then
        if hasKey kvs "width" && hasKey kvs "height" then
          if isPosNum (jIndex kvs "width") then
            if isPosNum (jIndex kvs "height") then (true, none)
            else (false, some "Rectangle 'height' must be a positive number.")
          else (false, some "Rectangle 'width' must be a positive number.")
        else (false, some "Rectangle requires 'width' and 'height' in shape_params.")
      else if shape == "circle" then
        if hasKey kvs "radius" then
          if isPosNum (jIndex kvs "radius") then (true, none)
          else (false, some "Circle 'radius' must be a positive number.")
        else (false, some "Circle requires 'radius' in shape_params.")
      else if shape == "pill" then
        pillCheck kvs ["width", "height", "border_radius"]
      else if shape == "c-rectangle" then
        match crectKeyCheck kvs ["width", "height", "missing_side", "missing_width", "missing_height"] with
        | some msg => (false, some msg)
        | none =>
          if isValidSide (jIndex kvs "missing_side") then
            if isPosNum (jIndex kvs "width") then
              if isPosNum (jIndex kvs "height") then
                if isPosNum (jIndex kvs "missing_width") then
                  if isPosNum (jIndex kvs "missing_height") then
                    if decide (pyNumVal (jIndex kvs "missing_width") < pyNumVal (jIndex kvs "width")) then
                      if decide (pyNumVal (jIndex kvs "missing_height") < pyNumVal (jIndex kvs "height")) then
                        (true, none)
                      else (false, some "C-rectangle 'missing_height' must be less than 'height'.")
                    else (false, some "C-rectangle 'missing_width' must be less than 'width'.")
                  else (false, some "C-rectangle 'missing_height' must be a positive number.")
                else (false, some "C-rectangle 'missing_width' must be a positive number.")
              else (false, some "C-rectangle 'height' must be a positive number.")
            else (false, some "C-rectangle 'width' must be a positive number.")
          else (false, some "C-rectangle 'missing_side' must be one of: top, bottom, left, right.")
      else (true, none)
    | _ => (false, some "shape_params must be a JSON object.")
  else
    (false, some ("Shape must be one of: " ++ String.intercalate ", " gardenBedShapeList ++ "."))

/-- Spec side (§4.1 of the spec): key `k` is present with a positive numeric
value. -/
def specHasPos (kvs : List (String × JValue)) (k : String) : Bool :=
  hasKey kvs k && isPosNum (jIndex kvs k)

/-- Spec side (§4.1 of the spec): the documented acceptance rule for each of
the four shapes — exactly the required keys present with positive numeric
values, `missing_side` one of top/bottom/left/right, and the two strict
size comparisons for c-rectangle. -/
def specValidParams (shape : String) (kvs : List (String × JValue)) : Bool :=
  if shape == "rectangle" then
    specHasPos kvs "width" && specHasPos kvs "height"
  else if shape == "circle" then
    specHasPos kvs "radius"
  else if shape == "pill" then
    specHasPos kvs "width" && specHasPos kvs "height" && specHasPos kvs "border_radius"
  else if shape == "c-rectangle" then
    specHasPos kvs "width" && specHasPos kvs "height" &&
    specHasPos kvs "missing_width" && specHasPos kvs "missing_height" &&
    hasKey kvs "missing_side" && isValidSide (jIndex kvs "missing_side") &&
    decide (pyNumVal (jIndex kvs "missing_width") < pyNumVal (jIndex kvs "width")) &&
    decide (pyNumVal (jIndex kvs "missing_height") < pyNumVal (jIndex kvs "height"))
  else false

/-! ## Python truthiness and dictionary-key semantics -/

/-- Python truthiness of a JSON value (`if x:`): `None`, `False`, `0`, `""`,
`[]` and `{}` are falsy. -/
def pyTruthy : JValue → Bool
  | .null => false
  | .bool b => b
  | .num q => !(q == 0)
  | .str s => !(s == "")
  | .arr xs => !xs.isEmpty
  | .obj kvs => !kvs.isEmpty

/-- Whether a value may be used as a Python dict key (lists and dicts are
unhashable; using one raises `TypeError`). -/
def pyHashable : JValue → Bool
  | .arr _ => false
  | .obj _ => false
  | _ => true

/-- Python `==` between dict keys: numbers and booleans compare by numeric
value (`True == 1`, `False == 0`), everything else structurally. -/
def pyKeyEq : JValue → JValue → Bool
  | .num a, .num b => a == b
  | .num a, .bool b => a == (if b then 1 else 0)
  | .bool a, .num b => (if a then (1 : ℚ) else 0) == b
  | .bool a, .bool b => a == b
  | .str a, .str b => a == b
  | .null, .null => true
  | _, _ => false

/-- The id maps built during import (`plant_type_id_map`,
`garden_bed_id_map`): Python dicts from the source document's id values to
freshly resolved database ids. -/
abbrev PyMap : Type := List (JValue × Nat)

/-- `m.get(k)` on an id map. -/
def pyMapGet (m : PyMap) (k : JValue) : Option Nat :=
  (m.find? (fun p => pyKeyEq p.fst k)).map Prod.snd

/-- `m[k] = v` on an id map: replace the value of an existing equal key,
else append. -/
def pyMapSet (m : PyMap) (k : JValue) (v : Nat) : PyMap :=
  match m with
  | [] => [(k, v)]
  | (k0, v0) :: rest =>
    if pyKeyEq k0 k then (k0, v) :: rest else (k0, v0) :: pyMapSet rest k v

/-! ## Calendar dates (model of the `datetime` library calls used by the
source: `datetime.date.fromisoformat`, `datetime.datetime.fromisoformat`
and `isoformat()`) -/

structure CalDate where
  year : Nat
  month : Nat
  day : Nat
deriving Repr, DecidableEq

def isLeapYear (y : Nat) : Bool :=
  (y % 4 == 0 && !(y % 100 == 0)) || y % 400 == 0

def daysInMonth (y m : Nat) : Nat :=
  if m == 2 then (if isLeapYear y then 29 else 28)
  else if m == 4 || m == 6 || m == 9 || m == 11 then 30
  else 31

/-- A date the `datetime` library can represent and that `isoformat`
renders with a four-digit year. -/
def validCalDate (d : CalDate) : Bool :=
  decide (1 ≤ d.year) && decide (d.year ≤ 9999) &&
  decide (1 ≤ d.month) && decide (d.month ≤ 12) &&
  decide (1 ≤ d.day) && decide (d.day ≤ daysInMonth d.year d.month)

def isDigitChar (c : Char) : Bool := c.isDigit

def digitVal (c : Char) : Nat := c.toNat - '0'.toNat

/-- `datetime.date.fromisoformat`: exactly `YYYY-MM-DD` at fixed positions,
with calendar validity checks; anything else raises `ValueError` (`none`). -/
def parseIsoDateChars : List Char → Option CalDate
  | [y1, y2, y3, y4, s1, m1, m2, s2, d1, d2] =>
    if s1 == '-' && s2 == '-' &&
       isDigitChar y1 && isDigitChar y2 && isDigitChar y3 && isDigitChar y4 &&
       isDigitChar m1 && isDigitChar m2 && isDigitChar d1 && isDigitChar d2 then
      let y := ((digitVal y1 * 10 + digitVal y2) * 10 + digitVal y3) * 10 + digitVal y4
      let m := digitVal m1 * 10 + digitVal m2
      let d := digitVal d1 * 10 + digitVal d2
      if decide (1 ≤ y) && decide (1 ≤ m) && decide (m ≤ 12) &&
         decide (1 ≤ d) && decide (d ≤ daysInMonth y m) then
        some ⟨y, m, d⟩
      else none
    else none
  | _ => none

def dateFromIsoformat (s : String) : Option CalDate :=
  parseIsoDateChars s.toList

/-- Time-of-day suffix accepted by `datetime.datetime.fromisoformat`
(`HH`, `HH:MM` or `HH:MM:SS`; fractional-second forms are not modelled —
no claim involves a datetime string). -/
def validTimeChars : List Char → Bool
  | [h1, h2] => isDigitChar h1 && isDigitChar h2 && decide (digitVal h1 * 10 + digitVal h2 < 24)
  | [h1, h2, c1, m1, m2] =>
    c1 == ':' && isDigitChar h1 && isDigitChar h2 &&
    decide (digitVal h1 * 10 + digitVal h2 < 24) &&
    isDigitChar m1 && isDigitChar m2 && decide (digitVal m1 * 10 + digitVal m2 < 60)
  | [h1, h2, c1, m1, m2, c2, s1, s2] =>
    c1 == ':' && c2 == ':' && isDigitChar h1 && isDigitChar h2 &&
    decide (digitVal h1 * 10 + digitVal h2 < 24) &&
    isDigitChar m1 && isDigitChar m2 && decide (digitVal m1 * 10 + digitVal m2 < 60) &&
    isDigitChar s1 && isDigitChar s2 && decide (digitVal s1 * 10 + digitVal s2 < 60)
  | _ => false

/-- `datetime.datetime.fromisoformat(s).date()`: a `YYYY-MM-DD` date part,
optionally followed by any single separator character and a time of day;
the time is discarded by `.date()`. -/
def datetimeDateFromIsoformat (s : String) : Option CalDate :=
  match s.toList with
  | [y1, y2, y3, y4, s1, m1, m2, s2, d1, d2] =>
    parseIsoDateChars [y1, y2, y3, y4, s1, m1, m2, s2, d1, d2]
  | y1 :: y2 :: y3 :: y4 :: s1 :: m1 :: m2 :: s2 :: d1 :: d2 :: _sep :: time =>
    if validTimeChars time then
      parseIsoDateChars [y1, y2, y3, y4, s1, m1, m2, s2, d1, d2]
    else none
  | _ => none

def digitChar : Nat → Char
  | 0 => '0' | 1 => '1' | 2 => '2' | 3 => '3' | 4 => '4'
  | 5 => '5' | 6 => '6' | 7 => '7' | 8 => '8' | 9 => '9'
  | _ => '?'

def pad2Chars (n : Nat) : List Char :=
  [digitChar (n / 10 % 10), digitChar (n % 10)]

def pad4Chars (n : Nat) : List Char :=
  [digitChar (n / 1000 % 10), digitChar (n / 100 % 10), digitChar (n / 10 % 10), digitChar (n % 10)]

/-- `date.isoformat()`: `YYYY-MM-DD`. -/
def isoformatDate (d : CalDate) : String :=
  ⟨pad4Chars d.year ++ '-' :: pad2Chars d.month ++ '-' :: pad2Chars d.day⟩

/-! ## Data model (`models.py`)

Column values that flow straight from decoded JSON (SQLite's flexible
typing persists whatever Python value is assigned) are modelled as
`JValue`; `null` stands for SQL `NULL` / Python `None`.  Integer primary
and foreign keys are `Nat`.  `Date` columns hold date objects
(`Option CalDate`), serialized through `isoformat` on export.  `DateTime`
audit columns (`creation_date`, `last_modified`) hold wall-clock
timestamps; their rendered text is taken from the state's `now` field when
a row is created, since no claim depends on real time. -/

structure UserRec where
  id : Nat
  email : String
  preferred_units : String
deriving Repr, DecidableEq

structure PlantTypeRec where
  id : Nat
  common_name : JValue
  scientific_name : JValue
  description : JValue
  avg_height : JValue
  avg_spread : JValue
  rotation_family : JValue
  notes : JValue
deriving Repr, DecidableEq

structure GardenBedRec where
  id : Nat
  user_id : Nat
  name : JValue
  shape : JValue
  shape_params : JValue
  length : JValue
  width : JValue
  unit_measure : JValue
  notes : JValue
  creation_date : String
  last_modified : String
deriving Repr, DecidableEq

structure PlantingRec where
  id : Nat
  bed_id : Nat
  plant_type_id : Nat
  year : JValue
  season : JValue
  date_planted : Option CalDate
  expected_harvest_date : Option CalDate
  notes : JValue
  is_current : Bool
  quantity : JValue
deriving Repr, DecidableEq

structure GardenLayoutRec where
  id : Nat
  user_id : Nat
  /-- The stored `layout_json` text, in decoded form: `some v` when the
  text is valid JSON decoding to `v`, `none` when `json.loads` on it
  raises. -/
  layout_json : Option JValue
  last_modified : String
deriving Repr, DecidableEq

structure DBState where
  users : List UserRec
  plant_types : List PlantTypeRec
  garden_beds : List GardenBedRec
  plantings : List PlantingRec
  layouts : List GardenLayoutRec
  next_plant_type_id : Nat
  next_bed_id : Nat
  next_planting_id : Nat
  next_layout_id : Nat
  /-- Rendered wall-clock time used for `DateTime` defaults. -/
  now : String
deriving Repr, DecidableEq

/-- `User.query.get(user_id)`. -/
def findUser (st : DBState) (uid : Nat) : Option UserRec :=
  st.users.find? (fun u => u.id == uid)

/-- `GardenBed.query.filter_by(user_id=uid)`. -/
def bedsOf (st : DBState) (uid : Nat) : List GardenBedRec :=
  st.garden_beds.filter (fun gb => gb.user_id == uid)

/-- `db.session.query(Planting).join(GardenBed, Planting.bed_id ==
GardenBed.id).filter(GardenBed.user_id == uid)` — the plantings whose bed
belongs to `uid` (with unique bed ids, the SQL join returns each matching
planting once, which this filter mirrors). -/
def plantingsOf (st : DBState) (uid : Nat) : List PlantingRec :=
  st.plantings.filter (fun p =>
    st.garden_beds.any (fun gb => p.bed_id == gb.id && gb.user_id == uid))

/-- `GardenLayout.query.filter_by(user_id=uid).first()`. -/
def layoutOf (st : DBState) (uid : Nat) : Option GardenLayoutRec :=
  st.layouts.find? (fun l => l.user_id == uid)

/-! ## Serialization (`to_dict` methods of `models.py`) -/

def optDateToJson : Option CalDate → JValue
  | some d => .str (isoformatDate d)
  | none => .null

/-- The key/value pairs of `PlantType.to_dict`. -/
def ptToDictFields (pt : PlantTypeRec) : List (String × JValue) :=
  [("id", .num pt.id), ("common_name", pt.common_name),
   ("scientific_name", pt.scientific_name), ("description", pt.description),
   ("avg_height", pt.avg_height), ("avg_spread", pt.avg_spread),
   ("rotation_family", pt.rotation_family), ("notes", pt.notes)]

/-- `PlantType.to_dict`. -/
def ptToDict (pt : PlantTypeRec) : JValue :=
  .obj (ptToDictFields pt)

/-- The key/value pairs of `GardenBed.to_dict` (`length` and `width` are
deprecated columns). -/
def bedToDictFields (gb : GardenBedRec) : List (String × JValue) :=
  [("id", .num gb.id), ("name", gb.name), ("shape", gb.shape),
   ("shape_params", gb.shape_params), ("length", gb.length),
   ("width", gb.width), ("unit_measure", gb.unit_measure),
   ("notes", gb.notes), ("creation_date", .str gb.creation_date),
   ("last_modified", .str gb.last_modified)]

/-- `GardenBed.to_dict`. -/
def bedToDict (gb : GardenBedRec) : JValue :=
  .obj (bedToDictFields gb)

/-- `Planting.to_dict`; the `plant_type` ORM relationship resolves the
foreign key, yielding `'Unknown Plant Type'` when it dangles. -/
def plantingToDictFields (pts : List PlantTypeRec) (p : PlantingRec) :
    List (String × JValue) :=
  let plant_common_name :=
    match pts.find? (fun pt => pt.id == p.plant_type_id) with
    | some pt => pt.common_name
    | none => .str "Unknown Plant Type"
  [("id", .num p.id), ("bed_id", .num p.bed_id),
   ("plant_type_id", .num p.plant_type_id),
   ("plant_common_name", plant_common_name),
   ("year", p.year), ("season", p.season),
   ("date_planted", optDateToJson p.date_planted),
   ("expected_harvest_date", optDateToJson p.expected_harvest_date),
   ("notes", p.notes), ("is_current", .bool p.is_current),
   ("quantity", p.quantity)]

def plantingToDict (pts : List PlantTypeRec) (p : PlantingRec) : JValue :=
  .obj (plantingToDictFields pts p)

/-- `GardenLayout.to_dict`; `json.loads(self.layout_json)` raises when the
stored text is not valid JSON (`none`). -/
def layoutToDict (l : GardenLayoutRec) : Option JValue :=
  match l.layout_json with
  | some v =>
    some (.obj [("id", .num l.id), ("user_id", .num l.user_id),
                ("layout", v), ("last_modified", .str l.last_modified)])
  | none => none

/-! ## Data export (`export_user_data`, `app.py` lines 887-922) -/

/-- `export_user_data`: the export document as an association list of its
five top-level keys.  `user_preferences` comes from
`user.to_dict().get('preferences', {})`; `plant_types` are all global
plant types; beds and plantings are the user's; `garden_layout` is the
layout's `to_dict()` or `{}`.  Errors: user not found (404), or
`to_dict` raising on an undecodable stored layout (500). -/
def export_user_data (st : DBState) (uid : Nat) :
    Except String (List (String × JValue)) := do
  match findUser st uid with
  | none => .error "User not found"
  | some user =>
    let garden_layout_json ←
      match layoutOf st uid with
      | some l =>
        match layoutToDict l with
        | some v => Except.ok v
        | none => Except.error "stored layout_json is not valid JSON"
      | none => Except.ok (.obj [])
    .ok [("user_preferences", .obj [("preferred_units", .str user.preferred_units)]),
         ("plant_types", .arr (st.plant_types.map ptToDict)),
         ("garden_beds", .arr ((bedsOf st uid).map bedToDict)),
         ("plantings", .arr ((plantingsOf st uid).map (plantingToDict st.plant_types))),
         ("garden_layout", garden_layout_json)]

/-! ## Data import (`import_user_data`, `app.py` lines 924-1088)

The import runs inside one session that is committed only at the end and
rolled back on any exception, so the failing paths return the original
state.  `Except.error` models a raised exception (caught at line 1083 and
answered with HTTP 500 after rollback). -/

/-- Python iteration `for x in v`: lists yield elements, dicts yield their
keys, strings yield one-character strings; other values raise `TypeError`. -/
def jIterE : JValue → Except String (List JValue)
  | .arr xs => .ok xs
  | .obj kvs => .ok (kvs.map (fun kv => .str kv.fst))
  | .str s => .ok (s.toList.map (fun c => .str (String.mk [c])))
  | _ => .error "TypeError: object is not iterable"

/-- `v.get(...)` requires a dict; on anything else Python raises
`AttributeError`. -/
def jAsObjE : JValue → Except String (List (String × JValue))
  | .obj kvs => .ok kvs
  | _ => .error "AttributeError: object has no attribute get"

/-- `m.get(k)` on an id map; unhashable keys raise `TypeError`. -/
def pyMapGetE (m : PyMap) (k : JValue) : Except String (Option Nat) :=
  if pyHashable k then .ok (pyMapGet m k) else .error "TypeError: unhashable type"

/-- `m[k] = v` on an id map; unhashable keys raise `TypeError`. -/
def pyMapSetE (m : PyMap) (k : JValue) (v : Nat) : Except String PyMap :=
  if pyHashable k then .ok (pyMapSet m k v) else .error "TypeError: unhashable type"

/-- `if old_id is not None: id_map[old_id] = new_id` (steps 3 and 4):
record the resolved id under the document's old id when one is present. -/
def recordIdMap (m : PyMap) (old_id : JValue) (newId : Nat) : Except String PyMap :=
  if old_id == .null then .ok m else pyMapSetE m old_id newId

/-- Step 3, update branch: overwrite the mutable fields of an existing
plant type from the document entry, keeping each current value as the
`.get` default (`app.py` lines 985-990). -/
def updatePlantType (kvs : List (String × JValue)) (pt : PlantTypeRec) : PlantTypeRec :=
  { pt with
    scientific_name := jGetD kvs "scientific_name" pt.scientific_name,
    description := jGetD kvs "description" pt.description,
    avg_height := jGetD kvs "avg_height" pt.avg_height,
    avg_spread := jGetD kvs "avg_spread" pt.avg_spread,
    rotation_family := jGetD kvs "rotation_family" pt.rotation_family,
    notes := jGetD kvs "notes" pt.notes }

/-- In-place update of the first plant type matching `common_name` (the row
`filter_by(common_name=…).first()` found). -/
def replaceFirstPlantType (pts : List PlantTypeRec) (cn : JValue)
    (kvs : List (String × JValue)) : List PlantTypeRec :=
  match pts with
  | [] => []
  | pt :: rest =>
    if pt.common_name == cn then updatePlantType kvs pt :: rest
    else pt :: replaceFirstPlantType rest cn kvs

/-- Step 3 (`app.py` lines 975-1004): upsert plant types by `common_name`,
skipping entries without one, and record `old id ↦ resolved id` when the
entry has a non-`None` id. -/
def importPlantTypes (pts : List PlantTypeRec) (entries : List JValue)
    (m : PyMap) (nid : Nat) : Except String (List PlantTypeRec × PyMap × Nat) :=
  match entries with
  | [] => .ok (pts, m, nid)
  | e :: rest => do
    let kvs ← jAsObjE e
    let old_id := jGetD kvs "id" .null
    let common_name := jGetD kvs "common_name" .null
    if pyTruthy common_name then
      match pts.find? (fun pt => pt.common_name == common_name) with
      | some pt =>
        let pts2 := replaceFirstPlantType pts common_name kvs
        let m2 ← recordIdMap m old_id pt.id
        importPlantTypes pts2 rest m2 nid
      | none =>
        let newPt : PlantTypeRec :=
          ⟨nid, common_name, jGetD kvs "scientific_name" .null,
           jGetD kvs "description" .null, jGetD kvs "avg_height" .null,
           jGetD kvs "avg_spread" .null, jGetD kvs "rotation_family" .null,
           jGetD kvs "notes" .null⟩
        let m2 ← recordIdMap m old_id nid
        importPlantTypes (pts ++ [newPt]) rest m2 (nid + 1)
    else
      importPlantTypes pts rest m nid

/-- Step 4 (`app.py` lines 1007-1021): create a fresh bed for every entry,
owned by the importing user, defaulting shape to `"rectangle"` and
`unit_measure` to the user's preferred units; record `old id ↦ new id`. -/
def importGardenBeds (uid : Nat) (user : UserRec) (entries : List JValue)
    (m : PyMap) (nid : Nat) (now : String) :
    Except String (List GardenBedRec × PyMap × Nat) :=
  match entries with
  | [] => .ok ([], m, nid)
  | e :: rest => do
    let kvs ← jAsObjE e
    let old_id := jGetD kvs "id" .null
    let newBed : GardenBedRec :=
      ⟨nid, uid, jGetD kvs "name" (.str "Unnamed Bed"),
       jGetD kvs "shape" (.str "rectangle"), jGetD kvs "shape_params" (.obj []),
       .null, .null, jGetD kvs "unit_measure" (.str user.preferred_units),
       jGetD kvs "notes" .null, now, now⟩
    let m2 ← recordIdMap m old_id nid
    let (moreBeds, m3, nid') ← importGardenBeds uid user rest m2 (nid + 1) now
    .ok (newBed :: moreBeds, m3, nid')

/-- `datetime...fromisoformat(x) if p_data.get(k) else None`: a falsy value
gives `None`; a truthy non-string raises `TypeError`; a truthy string that
does not parse raises `ValueError`. -/
def parsePlantingDate (v : JValue) (parse : String → Option CalDate) :
    Except String (Option CalDate) :=
  if pyTruthy v then
    match v with
    | .str s =>
      match parse s with
      | some d => .ok (some d)
      | none => .error "ValueError: invalid isoformat string"
    | _ => .error "TypeError: fromisoformat argument must be str"
  else .ok none

/-- Step 5, one entry (`app.py` lines 1024-1043): resolve both references
through the id maps; if either is unresolved the planting is skipped
(`ok none`).  Note the source reads the harvest date from
`projected_harvest_date` (line 1041) while the export writes
`expected_harvest_date`. -/
def importOnePlanting (ptm bedm : PyMap) (e : JValue) (nid : Nat) :
    Except String (Option PlantingRec) := do
  let kvs ← jAsObjE e
  let old_plant_type_id := jGetD kvs "plant_type_id" .null
  let old_bed_id := jGetD kvs "bed_id" .null
  let new_plant_type_id ← pyMapGetE ptm old_plant_type_id
  let new_bed_id ← pyMapGetE bedm old_bed_id
  match new_plant_type_id, new_bed_id with
  | some ptid, some bedid => do
    let date_planted ← parsePlantingDate (jGetD kvs "date_planted" .null) datetimeDateFromIsoformat
    let expected ← parsePlantingDate (jGetD kvs "projected_harvest_date" .null) dateFromIsoformat
    .ok (some ⟨nid, bedid, ptid, .null, .null, date_planted, expected,
               jGetD kvs "notes" .null, true, jGetD kvs "quantity" (.num 1)⟩)
  | _, _ => .ok none

/-- Step 5 over the whole `plantings` list. -/
def importPlantings (ptm bedm : PyMap) (entries : List JValue) (nid : Nat) :
    Except String (List PlantingRec × Nat) :=
  match entries with
  | [] => .ok ([], nid)
  | e :: rest => do
    match ← importOnePlanting ptm bedm e nid with
    | some r => do
      let (more, nid') ← importPlantings ptm bedm rest (nid + 1)
      .ok (r :: more, nid')
    | none => importPlantings ptm bedm rest nid

/-- `d[k] = v` on a string-keyed dict: overwrite in place or append. -/
def strSet (kvs : List (String × JValue)) (k : String) (v : JValue) :
    List (String × JValue) :=
  match kvs with
  | [] => [(k, v)]
  | (k0, v0) :: rest =>
    if k0 == k then (k0, v) :: rest else (k0, v0) :: strSet rest k v

/-- Step 6, one `beds` entry: rewrite its `id` through the bed id map when
present and resolvable (`app.py` lines 1056-1064). -/
def rewriteBedItem (bedm : PyMap) (item : JValue) : Except String JValue :=
  match item with
  | .obj ikvs =>
    if hasKey ikvs "id" then
      let old := jIndex ikvs "id"
      -- `old_bed_item_id in garden_bed_id_map` raises on unhashable ids
      if pyHashable old then
        match pyMapGet bedm old with
        | some newId => .ok (.obj (strSet ikvs "id" (.num newId)))
        | none => .ok item
      else .error "TypeError: unhashable type"
    else .ok item
  | _ => .ok item

def rewriteBedItems (bedm : PyMap) : List JValue → Except String (List JValue)
  | [] => .ok []
  | x :: xs => do
    let y ← rewriteBedItem bedm x
    let ys ← rewriteBedItems bedm xs
    .ok (y :: ys)

/-- Step 6 (`app.py` lines 1048-1078): when the document's `garden_layout`
is truthy and its `layout` field is a dict, rewrite bed ids inside its
`beds` list and persist it as the user's new layout; otherwise skip
without failing. -/
def importLayout (uid : Nat) (bedm : PyMap) (layout_data : JValue)
    (nid : Nat) (now : String) : Except String (List GardenLayoutRec × Nat) :=
  if pyTruthy layout_data then do
    let ldKvs ← jAsObjE layout_data
    match jGetD ldKvs "layout" .null with
    | .obj content => do
      let content2 ←
        match jLookup content "beds" with
        | some (.arr items) => do
          let items2 ← rewriteBedItems bedm items
          pure (strSet content "beds" (.arr items2))
        | _ => pure content
      .ok ([⟨nid, uid, some (.obj content2), now⟩], nid + 1)
    | _ => .ok ([], nid)
  else .ok ([], nid)

def expectedImportKeys : List String :=
  ["user_preferences", "plant_types", "garden_beds", "plantings", "garden_layout"]

/-- The body of `import_user_data` inside the try block (`app.py` lines
951-1081), producing the committed state. -/
def importBody (st : DBState) (uid : Nat) (user : UserRec)
    (doc : List (String × JValue)) : Except String DBState := do
  -- Step 1: delete the user's plantings (collected by joining through
  -- their beds), layout and beds; plant types are never deleted.
  let planting_ids_to_delete := (plantingsOf st uid).map (fun p => p.id)
  let plantings1 := st.plantings.filter (fun p => !planting_ids_to_delete.contains p.id)
  let layouts1 := st.layouts.filter (fun l => !(l.user_id == uid))
  let beds1 := st.garden_beds.filter (fun gb => !(gb.user_id == uid))
  -- Step 2: the source assigns `user.preferences = json.dumps(...)` (line
  -- 971), but `preferences` is not a mapped column of `User` (`models.py`
  -- defines `preferred_units`); the assignment creates a transient Python
  -- attribute, so nothing about the user row changes in the database.
  let ptEntries ← jIterE (jGetD doc "plant_types" (.arr []))
  let (plant_types2, ptMap, nextPt) ← importPlantTypes st.plant_types ptEntries [] st.next_plant_type_id
  let bedEntries ← jIterE (jGetD doc "garden_beds" (.arr []))
  let (newBeds, bedMap, nextBed) ← importGardenBeds uid user bedEntries [] st.next_bed_id st.now
  let plantingEntries ← jIterE (jGetD doc "plantings" (.arr []))
  let (newPlantings, nextPlanting) ← importPlantings ptMap bedMap plantingEntries st.next_planting_id
  let (newLayouts, nextLayout) ← importLayout uid bedMap (jGetD doc "garden_layout" .null) st.next_layout_id st.now
  .ok { st with
        plant_types := plant_types2,
        garden_beds := beds1 ++ newBeds,
        plantings := plantings1 ++ newPlantings,
        layouts := layouts1 ++ newLayouts,
        next_plant_type_id := nextPt,
        next_bed_id := nextBed,
        next_planting_id := nextPlanting,
        next_layout_id := nextLayout }

inductive ImportStatus where
  | ok
  | userNotFound
  | missingKeys
  | importFailed (msg : String)
deriving Repr, DecidableEq

/-- `import_user_data` on an already-decoded JSON object (uploads that are
not a `.json` file or not valid JSON are rejected before this point):
404 when the user does not exist, 400 `missingKeys` when a required
top-level key is absent — checked before any database work — otherwise the
transactional body with rollback on error. -/
def import_user_data (st : DBState) (uid : Nat) (doc : List (String × JValue)) :
    ImportStatus × DBState :=
  match findUser st uid with
  | none => (.userNotFound, st)
  | some user =>
    if expectedImportKeys.all (fun k => hasKey doc k) then
      match importBody st uid user doc with
      | .ok st2 => (.ok, st2)
      | .error msg => (.importFailed msg, st)
    else (.missingKeys, st)

/-! ## Layout store (`save_garden_layout`, `app.py` lines 751-780) -/

def charListHasPre (needle hay : List Char) : Bool :=
  match needle, hay with
  | [], _ => true
  | _ :: _, [] => false
  | n :: ns, h :: hs => n == h && charListHasPre ns hs

def charListHasSub (needle hay : List Char) : Bool :=
  charListHasPre needle hay ||
    match hay with
    | [] => false
    | _ :: tl => charListHasSub needle tl

/-- Python `k in v` for a string key: key membership for dicts, element
equality for lists, substring for strings; other types raise `TypeError`. -/
def pyContainsKey (container : JValue) (k : String) : Except String Bool :=
  match container with
  | .obj kvs => .ok (hasKey kvs k)
  | .arr xs => .ok (xs.any (fun x => x == .str k))
  | .str s => .ok (charListHasSub k.toList s.toList)
  | _ => .error "TypeError: argument is not iterable"

/-- Python `v[k]` for a string key (only dicts support it). -/
def jSubscriptE (container : JValue) (k : String) : Except String JValue :=
  match container with
  | .obj kvs =>
    match jLookup kvs k with
    | some v => .ok v
    | none => .error "KeyError"
  | _ => .error "TypeError: indices must be integers"

inductive SaveStatus where
  | ok
  | missingLayout
  | error (msg : String)
deriving Repr, DecidableEq

/-- Body of the try block of `save_garden_layout` (`app.py` lines 758-778):
merge onto an existing layout (decoding failures treated as `{}`), or
store the incoming document verbatim when none exists. -/
def saveLayoutBody (st : DBState) (uid : Nat) (data : JValue) :
    Except String DBState := do
  let new_layout ← jSubscriptE data "layout"
  match layoutOf st uid with
  | some existing =>
    let merged : List (String × JValue) :=
      match existing.layout_json with
      | none => []              -- json.loads raised: existing_layout = \x7b\x7d
      | some (.obj kvs) => kvs  -- a dict: merged_layout = existing_layout.copy()
      | some _ => []            -- decoded but not a dict: merged_layout = \x7b\x7d
    let items ←
      match new_layout with
      | .obj kvs => Except.ok kvs
      | _ => Except.error "AttributeError: object has no attribute items"
    let merged2 := items.foldl (fun acc kv => strSet acc kv.fst kv.snd) merged
    .ok { st with
          layouts := st.layouts.map (fun l =>
            if l.id == existing.id then
              { l with layout_json := some (.obj merged2), last_modified := st.now }
            else l) }
  | none =>
    .ok { st with
          layouts := st.layouts ++ [⟨st.next_layout_id, uid, some new_layout, st.now⟩],
          next_layout_id := st.next_layout_id + 1 }

/-- `save_garden_layout`: 400 when the request body is falsy or has no
`layout` key (the `in` check on a non-container raises outside the try
block — a 500 with nothing persisted); then the merge/store body, any
exception of which is answered with 500 and nothing persisted. -/
def save_garden_layout (st : DBState) (uid : Nat) (data : JValue) :
    SaveStatus × DBState :=
  if pyTruthy data then
    match pyContainsKey data "layout" with
    | .error msg => (.error msg, st)
    | .ok false => (.missingLayout, st)
    | .ok true =>
      match saveLayoutBody st uid data with
      | .ok st2 => (.ok, st2)
      | .error msg => (.error msg, st)
  else (.missingLayout, st)

/-- Spec-side rule for a planting date field: look the field up in the
entry and parse it as a calendar date, absence (or a falsy value) giving
null. -/
def specDateOfField (e : JValue) (field : String)
    (parse : String → Option CalDate) : Except String (Option CalDate) := do
  let kvs ← jAsObjE e
  parsePlantingDate (jGetD kvs field .null) parse

/-- A planting entry that step 5 skips: a dict whose (hashable) `bed_id`
or `plant_type_id` resolves to nothing in the respective id map. -/
def skippedPlanting (ptm bedm : PyMap) (e : JValue) : Bool :=
  match e with
  | .obj kvs =>
    pyHashable (jGetD kvs "plant_type_id" .null) &&
    pyHashable (jGetD kvs "bed_id" .null) &&
    ((pyMapGet ptm (jGetD kvs "plant_type_id" .null)).isNone ||
     (pyMapGet bedm (jGetD kvs "bed_id" .null)).isNone)
  | _ => false

/-- A well-formed decoded layout value for step 6: if it is a dict whose
`beds` key holds a list, every dict item of that list either lacks an `id`
key or holds a hashable one (so the bed-id rewrite cannot raise). -/
def layoutContentOK : JValue → Bool
  | .obj content =>
    match jLookup content "beds" with
    | some (.arr items) => items.all (fun item =>
        match item with
        | .obj ikvs => !(hasKey ikvs "id") || pyHashable (jIndex ikvs "id")
        | _ => true)
    | _ => true
  | _ => true

instance {ε α : Type} [DecidableEq ε] [DecidableEq α] : DecidableEq (Except ε α)
  | .error e1, .error e2 =>
    if h : e1 = e2 then .isTrue (by rw [h]) else .isFalse (by simp [h])
  | .error _, .ok _ => .isFalse (by simp)
  | .ok _, .error _ => .isFalse (by simp)
  | .ok a1, .ok a2 =>
    if h : a1 = a2 then .isTrue (by rw [h]) else .isFalse (by simp [h])

/-- Database well-formedness: primary keys are unique and below the
allocation counters, and planting rows reference bed ids below the
counter (foreign-key integrity gives this in the real database). -/
abbrev wfState (st : DBState) : Prop :=
  (st.garden_beds.map (fun gb => gb.id)).Nodup ∧
  (∀ gb ∈ st.garden_beds, gb.id < st.next_bed_id) ∧
  (st.plantings.map (fun p => p.id)).Nodup ∧
  (∀ p ∈ st.plantings, p.bed_id < st.next_bed_id)

/-! ## Concrete fixtures used by witnesses and counterexamples -/

/-- A one-user database with no garden data. -/
def c4State : DBState :=
  ⟨[⟨1, "gardener@example.com", "imperial"⟩], [], [], [], [], 1, 1, 1, 1, "t0"⟩

/-- An import document asking for metric preferred units and nothing else. -/
def c4Doc : List (String × JValue) :=
  [("user_preferences", .obj [("preferred_units", .str "metric")]),
   ("plant_types", .arr []), ("garden_beds", .arr []),
   ("plantings", .arr []), ("garden_layout", .null)]

/-- A one-user database for the harvest-date counterexample. -/
def c5State : DBState :=
  ⟨[⟨1, "gardener@example.com", "imperial"⟩], [], [], [], [], 1, 1, 1, 1, "t0"⟩

/-- An import document whose single planting carries an
`expected_harvest_date` — the key the export writes. -/
def c5Doc : List (String × JValue) :=
  [("user_preferences", .obj []),
   ("plant_types", .arr [.obj [("id", .num 1), ("common_name", .str "Tomato")]]),
   ("garden_beds", .arr [.obj [("id", .num 1), ("name", .str "Bed A")]]),
   ("plantings", .arr [.obj [("bed_id", .num 1), ("plant_type_id", .num 1),
                             ("date_planted", .str "2024-05-01"),
                             ("expected_harvest_date", .str "2024-09-01")]]),
   ("garden_layout", .null)]

/-- A one-user database with a stored layout that decodes to a map. -/
def c7State : DBState :=
  ⟨[⟨1, "gardener@example.com", "imperial"⟩], [], [], [],
   [⟨1, 1, some (.obj [("yard", .num 10), ("beds", .arr [])]), "t0"⟩],
   1, 1, 1, 2, "t1"⟩

/-- A one-user database whose stored layout text is not valid JSON. -/
def c10State : DBState :=
  ⟨[⟨1, "gardener@example.com", "imperial"⟩], [], [], [],
   [⟨1, 1, none, "t0"⟩], 1, 1, 1, 2, "t1"⟩

/-- A one-user database used by the missing-keys witness. -/
def c3State : DBState :=
  ⟨[⟨1, "gardener@example.com", "imperial"⟩],
   [⟨1, .str "Tomato", .null, .null, .null, .null, .null, .null⟩],
   [⟨1, 1, .str "Bed A", .str "rectangle", .obj [("width", .num 4), ("height", .num 2)],
     .null, .null, .str "feet", .null, "t0", "t0"⟩],
   [], [], 2, 2, 1, 1, "t0"⟩


/-- A two-user database: user 1 and user 2 each own a bed, a planting and
a layout. -/
def c9State : DBState :=
  ⟨[⟨1, "a@example.com", "imperial"⟩, ⟨2, "b@example.com", "metric"⟩],
   [⟨1, .str "Tomato", .null, .null, .null, .null, .null, .null⟩],
   [⟨1, 1, .str "Bed A", .str "rectangle", .obj [], .null, .null, .str "feet", .null, "t0", "t0"⟩,
    ⟨2, 2, .str "Bed B", .str "circle", .obj [], .null, .null, .str "meters", .null, "t0", "t0"⟩],
   [⟨1, 1, 1, .null, .null, none, none, .null, true, .null⟩,
    ⟨2, 2, 1, .null, .null, none, none, .null, true, .null⟩],
   [⟨1, 1, some (.obj []), "t0"⟩, ⟨2, 2, some (.obj [("a", .num 1)]), "t0"⟩],
   2, 3, 3, 3, "t1"⟩

/-- An import document replacing user 1's garden with one bed and one
planting. -/
def c9Doc : List (String × JValue) :=
  [("user_preferences", .obj []),
   ("plant_types", .arr [.obj [("id", .num 1), ("common_name", .str "Tomato")]]),
   ("garden_beds", .arr [.obj [("id", .num 1), ("name", .str "New Bed")]]),
   ("plantings", .arr [.obj [("bed_id", .num 1), ("plant_type_id", .num 1)]]),
   ("garden_layout", .null)]

/-- The decoded layout document stored for the round-trip witness user. -/
def c2Layout : JValue :=
  .obj [("beds", .arr [.obj [("id", .num 1), ("x", .num 0)]]), ("zoom", .num 2)]

/-- A one-user database owning one plant type, one bed, one planting and a
stored layout - the dataset exported by the round-trip witness. -/
def c2State1 : DBState :=
  ⟨[⟨1, "a@example.com", "imperial"⟩],
   [⟨1, .str "Tomato", .null, .null, .null, .null, .null, .null⟩],
   [⟨1, 1, .str "Bed A", .str "rectangle", .obj [("width", .num 4), ("height", .num 2)],
     .null, .null, .str "feet", .null, "t0", "t0"⟩],
   [⟨1, 1, 1, .null, .null, some ⟨2024, 5, 1⟩, some ⟨2024, 9, 1⟩, .null, true, .null⟩],
   [⟨1, 1, some c2Layout, "t0"⟩],
   2, 2, 2, 2, "t0"⟩

/-- A fresh account (user 2, no garden data) in a database holding the same
global plant types. -/
def c2State2 : DBState :=
  ⟨[⟨2, "b@example.com", "metric"⟩],
   [⟨1, .str "Tomato", .null, .null, .null, .null, .null, .null⟩],
   [], [], [], 2, 10, 5, 3, "t1"⟩

/-- The document `export_user_data` produces for user 1 of `c2State1`. -/
def c2Doc : List (String × JValue) :=
  [("user_preferences", .obj [("preferred_units", .str "imperial")]),
   ("plant_types", .arr [.obj [("id", .num 1), ("common_name", .str "Tomato"),
     ("scientific_name", .null), ("description", .null), ("avg_height", .null),
     ("avg_spread", .null), ("rotation_family", .null), ("notes", .null)]]),
   ("garden_beds", .arr [.obj [("id", .num 1), ("name", .str "Bed A"),
     ("shape", .str "rectangle"),
     ("shape_params", .obj [("width", .num 4), ("height", .num 2)]),
     ("length", .null), ("width", .null), ("unit_measure", .str "feet"),
     ("notes", .null), ("creation_date", .str "t0"), ("last_modified", .str "t0")]]),
   ("plantings", .arr [.obj [("id", .num 1), ("bed_id", .num 1),
     ("plant_type_id", .num 1), ("plant_common_name", .str "Tomato"),
     ("year", .null), ("season", .null), ("date_planted", .str "2024-05-01"),
     ("expected_harvest_date", .str "2024-09-01"), ("notes", .null),
     ("is_current", .bool true), ("quantity", .null)]]),
   ("garden_layout", .obj [("id", .num 1), ("user_id", .num 1),
     ("layout", c2Layout), ("last_modified", .str "t0")])]

/-! # Theorems -/

/-- C1: for every shape among rectangle, circle, pill, c-rectangle and
every string-keyed map `shape_params`, `validate_bed_shape_and_params`
returns valid exactly when the shape's documented required keys are
present with positive numeric values (for c-rectangle additionally
`missing_side ∈ top/bottom/left/right`, `missing_width < width` and
`missing_height < height`), and every invalid outcome carries a reason
string. -/
theorem validate_matches_documented_rules (shape : String) (kvs : List (String × JValue))
    (hs : shape ∈ gardenBedShapeList) :
    ((validate_bed_shape_and_params shape (.obj kvs)).fst = true ↔
      specValidParams shape kvs = true) ∧
    ((validate_bed_shape_and_params shape (.obj kvs)).fst = false →
      (validate_bed_shape_and_params shape (.obj kvs)).snd.isSome = true) := by
  have hs' : shape = "rectangle" ∨ shape = "circle" ∨ shape = "pill" ∨ shape = "c-rectangle" := by
    simpa [gardenBedShapeList] using hs
  rcases hs' with rfl | rfl | rfl | rfl
  · cases h1 : hasKey kvs "width" <;> cases h2 : hasKey kvs "height" <;>
      cases h3 : isPosNum (jIndex kvs "width") <;> cases h4 : isPosNum (jIndex kvs "height") <;>
      simp [validate_bed_shape_and_params, specValidParams, specHasPos, gardenBedShapeList,
            h1, h2, h3, h4]
  · cases h1 : hasKey kvs "radius" <;> cases h2 : isPosNum (jIndex kvs "radius") <;>
      simp [validate_bed_shape_and_params, specValidParams, specHasPos, gardenBedShapeList, h1, h2]
  · cases h1 : hasKey kvs "width" <;> cases h2 : hasKey kvs "height" <;>
      cases h3 : hasKey kvs "border_radius" <;>
      cases h4 : isPosNum (jIndex kvs "width") <;> cases h5 : isPosNum (jIndex kvs "height") <;>
      cases h6 : isPosNum (jIndex kvs "border_radius") <;>
      simp [validate_bed_shape_and_params, specValidParams, specHasPos, pillCheck,
            gardenBedShapeList, h1, h2, h3, h4, h5, h6]
  · cases h1 : hasKey kvs "width" with
    | false => simp [validate_bed_shape_and_params, specValidParams, specHasPos, crectKeyCheck, gardenBedShapeList, h1]
    | true =>
    cases h2 : hasKey kvs "height" with
    | false => simp [validate_bed_shape_and_params, specValidParams, specHasPos, crectKeyCheck, gardenBedShapeList, h1, h2]
    | true =>
    cases h3 : hasKey kvs "missing_side" with
    | false => simp [validate_bed_shape_and_params, specValidParams, specHasPos, crectKeyCheck, gardenBedShapeList, h1, h2, h3]
    | true =>
    cases h4 : hasKey kvs "missing_width" with
    | false => simp [validate_bed_shape_and_params, specValidParams, specHasPos, crectKeyCheck, gardenBedShapeList, h1, h2, h3, h4]
    | true =>
    cases h5 : hasKey kvs "missing_height" with
    | false => simp [validate_bed_shape_and_params, specValidParams, specHasPos, crectKeyCheck, gardenBedShapeList, h1, h2, h3, h4, h5]
    | true =>
    cases h6 : isValidSide (jIndex kvs "missing_side") with
    | false => simp [validate_bed_shape_and_params, specValidParams, specHasPos, crectKeyCheck, gardenBedShapeList, h1, h2, h3, h4, h5, h6]
    | true =>
    cases h7 : isPosNum (jIndex kvs "width") with
    | false => simp [validate_bed_shape_and_params, specValidParams, specHasPos, crectKeyCheck, gardenBedShapeList, h1, h2, h3, h4, h5, h6, h7]
    | true =>
    cases h8 : isPosNum (jIndex kvs "height") with
    | false => simp [validate_bed_shape_and_params, specValidParams, specHasPos, crectKeyCheck, gardenBedShapeList, h1, h2, h3, h4, h5, h6, h7, h8]
    | true =>
    cases h9 : isPosNum (jIndex kvs "missing_width") with
    | false => simp [validate_bed_shape_and_params, specValidParams, specHasPos, crectKeyCheck, gardenBedShapeList, h1, h2, h3, h4, h5, h6, h7, h8, h9]
    | true =>
    cases h10 : isPosNum (jIndex kvs "missing_height") with
    | false => simp [validate_bed_shape_and_params, specValidParams, specHasPos, crectKeyCheck, gardenBedShapeList, h1, h2, h3, h4, h5, h6, h7, h8, h9, h10]
    | true =>
    by_cases h11 : pyNumVal (jIndex kvs "missing_width") < pyNumVal (jIndex kvs "width")
    · by_cases h12 : pyNumVal (jIndex kvs "missing_height") < pyNumVal (jIndex kvs "height")
      · simp [validate_bed_shape_and_params, specValidParams, specHasPos, crectKeyCheck, gardenBedShapeList, h1, h2, h3, h4, h5, h6, h7, h8, h9, h10, h11, h12]
      · simp [validate_bed_shape_and_params, specValidParams, specHasPos, crectKeyCheck, gardenBedShapeList, h1, h2, h3, h4, h5, h6, h7, h8, h9, h10, h11, h12]
    · simp [validate_bed_shape_and_params, specValidParams, specHasPos, crectKeyCheck, gardenBedShapeList, h1, h2, h3, h4, h5, h6, h7, h8, h9, h10, h11]

/-- Witness for C1 at shape `"circle"` with `shape_params = ("radius": 3)`. -/
theorem validate_matches_documented_rules_witness :
    ("circle" ∈ gardenBedShapeList) ∧
    (((validate_bed_shape_and_params "circle" (.obj [("radius", .num 3)])).fst = true ↔
       specValidParams "circle" [("radius", .num 3)] = true) ∧
     ((validate_bed_shape_and_params "circle" (.obj [("radius", .num 3)])).fst = false →
       (validate_bed_shape_and_params "circle" (.obj [("radius", .num 3)])).snd.isSome = true)) :=
  ⟨by decide, validate_matches_documented_rules "circle" [("radius", .num 3)] (by decide)⟩

/-- C8: any shape name outside the four allowed values is rejected with
exactly the message
"Shape must be one of: rectangle, circle, pill, c-rectangle.". -/
theorem invalid_shape_exact_message (shape : String) (params : JValue)
    (hs : shape ∉ gardenBedShapeList) :
    validate_bed_shape_and_params shape params =
      (false, some "Shape must be one of: rectangle, circle, pill, c-rectangle.") := by
  unfold validate_bed_shape_and_params
  rw [if_neg hs]
  decide

/-- Witness for C8 at `validate("hexagon", \x7b\x7d)`. -/
theorem invalid_shape_exact_message_witness :
    ("hexagon" ∉ gardenBedShapeList) ∧
    validate_bed_shape_and_params "hexagon" (.obj []) =
      (false, some "Shape must be one of: rectangle, circle, pill, c-rectangle.") :=
  ⟨by decide, invalid_shape_exact_message "hexagon" (.obj []) (by decide)⟩

/-- C3: importing a document that lacks one of the five required top-level
keys fails with the missing-keys error, and the database state — the
user's beds, plantings, layout, preferences and all plant types — is
returned unmodified (the key check runs before any database work). -/
theorem import_missing_keys_unmodified (st : DBState) (uid : Nat) (u : UserRec)
    (doc : List (String × JValue)) (hu : findUser st uid = some u)
    (hk : ∃ k ∈ expectedImportKeys, hasKey doc k = false) :
    import_user_data st uid doc = (.missingKeys, st) := by
  have hall : expectedImportKeys.all (fun k => hasKey doc k) = false := by
    rcases hk with ⟨k, hk1, hk2⟩
    rw [Bool.eq_false_iff]
    intro hcontra
    rw [List.all_eq_true] at hcontra
    have h := hcontra k hk1
    rw [hk2] at h
    exact Bool.false_ne_true h
  simp [import_user_data, hu, hall]

/-- Witness for C3: importing a document with only the `plant_types` key
into a database holding a user with one bed and one plant type. -/
theorem import_missing_keys_unmodified_witness :
    (findUser c3State 1 = some ⟨1, "gardener@example.com", "imperial"⟩) ∧
    (∃ k ∈ expectedImportKeys, hasKey [("plant_types", JValue.arr [])] k = false) ∧
    import_user_data c3State 1 [("plant_types", JValue.arr [])] = (.missingKeys, c3State) :=
  ⟨by decide, by decide,
   import_missing_keys_unmodified c3State 1 ⟨1, "gardener@example.com", "imperial"⟩
     [("plant_types", JValue.arr [])] (by decide) (by decide)⟩

/-- C4 (code bug): a successful import of a document whose
`user_preferences` carry `preferred_units = "metric"` leaves the importing
user's persisted `preferred_units` at `"imperial"` — the source assigns
`user.preferences` (not a mapped column) instead of updating
`preferred_units`, so the document's preferences never reach the User
record. -/
theorem import_preferences_not_applied :
    (import_user_data c4State 1 c4Doc).fst = .ok ∧
    jGetD c4Doc "user_preferences" .null = .obj [("preferred_units", .str "metric")] ∧
    (findUser (import_user_data c4State 1 c4Doc).snd 1).map (fun u => u.preferred_units) =
      some "imperial" := by
  decide

/-- C5 counterexample: a successful import of a document whose planting
carries an `expected_harvest_date` (the key the export serializes, and a
parseable ISO date) stores `none` as the planting's expected harvest date
— refuting the claim that the stored value equals that field parsed. -/
theorem import_ignores_expected_harvest_date :
    (import_user_data c5State 1 c5Doc).fst = .ok ∧
    (jLookup
      [("bed_id", JValue.num 1), ("plant_type_id", JValue.num 1),
       ("date_planted", JValue.str "2024-05-01"),
       ("expected_harvest_date", JValue.str "2024-09-01")]
      "expected_harvest_date" = some (.str "2024-09-01")) ∧
    dateFromIsoformat "2024-09-01" = some ⟨2024, 9, 1⟩ ∧
    (import_user_data c5State 1 c5Doc).snd.plantings.map
      (fun p => (p.date_planted, p.expected_harvest_date)) =
      [(some ⟨2024, 5, 1⟩, none)] := by
  decide

/-- C5 as amended: for every planting entry the import persists (does not
skip), the stored `date_planted` equals the document's `date_planted`
parsed as a calendar date (null when the field is absent or falsy), and
the stored expected harvest date equals the document's
`projected_harvest_date` field — not the `expected_harvest_date` field the
export serializes — parsed as a calendar date (null when absent). -/
theorem imported_planting_dates (ptm bedm : PyMap) (e : JValue) (nid : Nat)
    (r : PlantingRec) (h : importOnePlanting ptm bedm e nid = .ok (some r)) :
    specDateOfField e "date_planted" datetimeDateFromIsoformat = .ok r.date_planted ∧
    specDateOfField e "projected_harvest_date" dateFromIsoformat = .ok r.expected_harvest_date := by
  unfold importOnePlanting at h
  unfold specDateOfField
  simp only [Bind.bind, Except.instMonad, Except.bind] at h ⊢
  cases he : jAsObjE e with
  | error msg => rw [he] at h; simp at h
  | ok kvs =>
    rw [he] at h
    simp only at h ⊢
    cases hpt : pyMapGetE ptm (jGetD kvs "plant_type_id" JValue.null) with
    | error m => rw [hpt] at h; simp at h
    | ok optPt =>
      rw [hpt] at h
      simp only at h
      cases hbed : pyMapGetE bedm (jGetD kvs "bed_id" JValue.null) with
      | error m => rw [hbed] at h; simp at h
      | ok optBed =>
        rw [hbed] at h
        simp only at h
        cases optPt with
        | none => simp at h
        | some ptid =>
          cases optBed with
          | none => simp at h
          | some bedid =>
            simp only at h
            cases hdp : parsePlantingDate (jGetD kvs "date_planted" JValue.null) datetimeDateFromIsoformat with
            | error m => rw [hdp] at h; simp at h
            | ok dp =>
              rw [hdp] at h
              simp only at h
              cases hhd : parsePlantingDate (jGetD kvs "projected_harvest_date" JValue.null) dateFromIsoformat with
              | error m => rw [hhd] at h; simp at h
              | ok hd =>
                rw [hhd] at h
                simp at h
                simp [← h]

/-- Witness for the amended C5 at a concrete planting entry with a
`date_planted` and no harvest field. -/
theorem imported_planting_dates_witness :
    (importOnePlanting [(.num 1, 5)] [(.num 2, 8)]
      (.obj [("plant_type_id", .num 1), ("bed_id", .num 2),
             ("date_planted", .str "2024-05-01")]) 0 =
      .ok (some ⟨0, 8, 5, .null, .null, some ⟨2024, 5, 1⟩, none, .null, true, .num 1⟩)) ∧
    (specDateOfField
        (.obj [("plant_type_id", .num 1), ("bed_id", .num 2),
               ("date_planted", .str "2024-05-01")])
        "date_planted" datetimeDateFromIsoformat = .ok (some ⟨2024, 5, 1⟩) ∧
     specDateOfField
        (.obj [("plant_type_id", .num 1), ("bed_id", .num 2),
               ("date_planted", .str "2024-05-01")])
        "projected_harvest_date" dateFromIsoformat = .ok none) :=
  ⟨by decide,
   imported_planting_dates [(.num 1, 5)] [(.num 2, 8)]
     (.obj [("plant_type_id", .num 1), ("bed_id", .num 2),
            ("date_planted", .str "2024-05-01")]) 0
     ⟨0, 8, 5, .null, .null, some ⟨2024, 5, 1⟩, none, .null, true, .num 1⟩
     (by decide)⟩

/-- Step 5 produces `ok none` (a skipped planting) exactly on the entries
`skippedPlanting` describes: a dict whose hashable `plant_type_id` /
`bed_id` fail to resolve through the id maps. -/
theorem importOnePlanting_ok_none_iff (ptm bedm : PyMap) (e : JValue) (nid : Nat) :
    importOnePlanting ptm bedm e nid = .ok none ↔ skippedPlanting ptm bedm e = true := by
  unfold importOnePlanting skippedPlanting
  cases e <;> simp [jAsObjE, Bind.bind, Except.instMonad, Except.bind]
  rename_i kvs
  unfold pyMapGetE
  by_cases h1 : pyHashable (jGetD kvs "plant_type_id" JValue.null) = true
  · by_cases h2 : pyHashable (jGetD kvs "bed_id" JValue.null) = true
    · simp only [h1, h2, if_true, ite_true, eq_self_iff_true, true_and]
      cases hpt : pyMapGet ptm (jGetD kvs "plant_type_id" JValue.null) with
      | none => simp [hpt]
      | some ptid =>
        cases hbed : pyMapGet bedm (jGetD kvs "bed_id" JValue.null) with
        | none => simp [hbed]
        | some bedid =>
          simp only
          cases hdp : parsePlantingDate (jGetD kvs "date_planted" JValue.null) datetimeDateFromIsoformat with
          | error m => simp [hdp]
          | ok dp =>
            cases hhd : parsePlantingDate (jGetD kvs "projected_harvest_date" JValue.null) dateFromIsoformat with
            | error m => simp [hdp, hhd]
            | ok hd => simp [hdp, hhd]
    · simp [h1, h2]
  · simp [h1]

/-- C6: against any id maps — in particular the ones steps 3-4 build from
the document's `plant_types` and `garden_beds` — the plantings step treats
entries whose old `bed_id` or `plant_type_id` is absent from the maps as
skipped: removing exactly those entries from the list changes nothing
about the import's outcome (so a skipped planting is not persisted and
never aborts the rest), and on success the number of plantings persisted
equals the number of resolvable entries. -/
theorem unresolvable_plantings_skipped (ptm bedm : PyMap) (entries : List JValue) (nid : Nat) :
    importPlantings ptm bedm (entries.filter (fun e => !skippedPlanting ptm bedm e)) nid =
      importPlantings ptm bedm entries nid ∧
    (importPlantings ptm bedm entries nid).map (fun out => out.fst.length) =
      (importPlantings ptm bedm entries nid).map
        (fun _ => (entries.filter (fun e => !skippedPlanting ptm bedm e)).length) := by
  induction entries generalizing nid with
  | nil => simp [importPlantings, Except.map]
  | cons e rest ih =>
    by_cases hs : skippedPlanting ptm bedm e = true
    · have hskip : importOnePlanting ptm bedm e nid = .ok none :=
        (importOnePlanting_ok_none_iff ptm bedm e nid).mpr hs
      have hfil : (e :: rest).filter (fun x => !skippedPlanting ptm bedm x) =
          rest.filter (fun x => !skippedPlanting ptm bedm x) := by
        simp [List.filter_cons, hs]
      rw [hfil]
      have hrhs : importPlantings ptm bedm (e :: rest) nid = importPlantings ptm bedm rest nid := by
        conv_lhs => rw [importPlantings]
        rw [hskip]
        simp [Bind.bind, Except.instMonad, Except.bind]
      rw [hrhs]
      exact ih nid
    · have hs' : skippedPlanting ptm bedm e = false := by
        rw [Bool.eq_false_iff]; exact hs
      have hfil : (e :: rest).filter (fun x => !skippedPlanting ptm bedm x) =
          e :: rest.filter (fun x => !skippedPlanting ptm bedm x) := by
        simp [List.filter_cons, hs']
      rw [hfil]
      cases hone : importOnePlanting ptm bedm e nid with
      | error m =>
        have hl : importPlantings ptm bedm (e :: rest.filter (fun x => !skippedPlanting ptm bedm x)) nid = .error m := by
          conv_lhs => rw [importPlantings]
          rw [hone]
          simp [Bind.bind, Except.instMonad, Except.bind]
        have hr : importPlantings ptm bedm (e :: rest) nid = .error m := by
          conv_lhs => rw [importPlantings]
          rw [hone]
          simp [Bind.bind, Except.instMonad, Except.bind]
        rw [hl, hr]
        simp [Except.map]
      | ok o =>
        cases o with
        | none =>
          exact absurd ((importOnePlanting_ok_none_iff ptm bedm e nid).mp hone) hs
        | some r =>
          have hl : importPlantings ptm bedm (e :: rest.filter (fun x => !skippedPlanting ptm bedm x)) nid =
              (do
                let (more, nid2) ← importPlantings ptm bedm (rest.filter (fun x => !skippedPlanting ptm bedm x)) (nid + 1)
                .ok (r :: more, nid2)) := by
            conv_lhs => rw [importPlantings]
            rw [hone]
            simp [Bind.bind, Except.instMonad, Except.bind]
          have hr : importPlantings ptm bedm (e :: rest) nid =
              (do
                let (more, nid2) ← importPlantings ptm bedm rest (nid + 1)
                .ok (r :: more, nid2)) := by
            conv_lhs => rw [importPlantings]
            rw [hone]
            simp [Bind.bind, Except.instMonad, Except.bind]
          rw [hl, hr, (ih (nid + 1)).1]
          constructor
          · rfl
          · have h2 := (ih (nid + 1)).2
            cases hrest : importPlantings ptm bedm rest (nid + 1) with
            | error m => simp [Bind.bind, Except.instMonad, Except.bind, hrest, Except.map]
            | ok out =>
              rw [hrest] at h2
              simp [Except.map] at h2
              simp [Bind.bind, Except.instMonad, Except.bind, hrest, Except.map, h2]

theorem jLookup_cons (k0 : String) (v0 : JValue) (rest : List (String × JValue)) (k : String) :
    jLookup ((k0, v0) :: rest) k = if k0 == k then some v0 else jLookup rest k := by
  simp only [jLookup, List.find?_cons]
  cases h : (k0 == k) <;> simp [h]

theorem jLookup_strSet_self (kvs : List (String × JValue)) (k : String) (v : JValue) :
    jLookup (strSet kvs k v) k = some v := by
  induction kvs with
  | nil => simp [strSet, jLookup]
  | cons kv rest ih =>
    obtain ⟨k0, v0⟩ := kv
    by_cases h : k0 = k
    · simp [strSet, h, jLookup_cons]
    · have hbeq : (k0 == k) = false := beq_eq_false_iff_ne.mpr h
      simp only [strSet, hbeq, if_false, Bool.false_eq_true, ite_false]
      rw [jLookup_cons, hbeq]
      simp [ih]

theorem jLookup_strSet_other (kvs : List (String × JValue)) (k k' : String) (v : JValue)
    (h : k' ≠ k) : jLookup (strSet kvs k v) k' = jLookup kvs k' := by
  have hkk' : (k == k') = false := beq_eq_false_iff_ne.mpr (Ne.symm h)
  induction kvs with
  | nil => simp [strSet, jLookup_cons, hkk', jLookup]
  | cons kv rest ih =>
    obtain ⟨k0, v0⟩ := kv
    by_cases h0 : k0 = k
    · subst h0
      have hset : strSet ((k0, v0) :: rest) k0 v = (k0, v) :: rest := by
        simp [strSet]
      rw [hset, jLookup_cons, jLookup_cons, hkk']
      simp
    · have hbeq : (k0 == k) = false := beq_eq_false_iff_ne.mpr h0
      have hset : strSet ((k0, v0) :: rest) k v = (k0, v0) :: strSet rest k v := by
        simp [strSet, hbeq]
      rw [hset, jLookup_cons, jLookup_cons]
      cases hk0 : (k0 == k') <;> simp [ih]

theorem jLookup_eq_none_of_not_mem (kvs : List (String × JValue)) (k : String)
    (h : k ∉ kvs.map Prod.fst) : jLookup kvs k = none := by
  induction kvs with
  | nil => simp [jLookup]
  | cons kv rest ih =>
    obtain ⟨k0, v0⟩ := kv
    rw [List.map_cons, List.mem_cons] at h
    push_neg at h
    have hbeq : (k0 == k) = false := beq_eq_false_iff_ne.mpr (fun he => h.1 he.symm)
    rw [jLookup_cons, hbeq]
    simp
    exact ih h.2

theorem jLookup_foldl_strSet (items : List (String × JValue)) :
    ∀ (acc : List (String × JValue)), (items.map Prod.fst).Nodup → ∀ k,
    jLookup (items.foldl (fun a kv => strSet a kv.fst kv.snd) acc) k =
      ((jLookup items k).or (jLookup acc k)) := by
  induction items with
  | nil => intro acc _ k; simp [jLookup]
  | cons kv rest ih =>
    intro acc hnd k
    obtain ⟨k0, v0⟩ := kv
    simp only [List.map_cons, List.nodup_cons] at hnd
    obtain ⟨hk0, hrest⟩ := hnd
    simp only [List.foldl_cons]
    rw [ih (strSet acc k0 v0) hrest k]
    by_cases h : k = k0
    · subst h
      rw [jLookup_eq_none_of_not_mem rest k hk0]
      rw [jLookup_cons]
      simp [jLookup_strSet_self]
    · have hbeq : (k0 == k) = false := beq_eq_false_iff_ne.mpr (fun he => h he.symm)
      rw [jLookup_cons, hbeq]
      simp only [Bool.false_eq_true, ite_false]
      rw [jLookup_strSet_other acc k0 k v0 h]

theorem strSet_append_fresh (acc : List (String × JValue)) (k : String) (v : JValue)
    (h : k ∉ acc.map Prod.fst) : strSet acc k v = acc ++ [(k, v)] := by
  induction acc with
  | nil => simp [strSet]
  | cons kv rest ih =>
    obtain ⟨k0, v0⟩ := kv
    rw [List.map_cons, List.mem_cons] at h
    push_neg at h
    have hbeq : (k0 == k) = false := beq_eq_false_iff_ne.mpr (fun he => h.1 he.symm)
    simp only [strSet, hbeq, Bool.false_eq_true, ite_false, List.cons_append, List.cons.injEq, true_and]
    exact ih h.2

theorem foldl_strSet_disjoint (items : List (String × JValue)) :
    ∀ (acc : List (String × JValue)), (items.map Prod.fst).Nodup →
    (∀ k ∈ items.map Prod.fst, k ∉ acc.map Prod.fst) →
    items.foldl (fun a kv => strSet a kv.fst kv.snd) acc = acc ++ items := by
  induction items with
  | nil => intro acc _ _; simp
  | cons kv rest ih =>
    intro acc hnd hdis
    obtain ⟨k0, v0⟩ := kv
    simp only [List.map_cons, List.nodup_cons] at hnd
    simp only [List.foldl_cons]
    rw [strSet_append_fresh acc k0 v0 (hdis k0 (by simp))]
    rw [ih (acc ++ [(k0, v0)]) hnd.2 ?hfresh]
    · simp
    case hfresh =>
      intro k hk
      rw [List.map_append, List.mem_append]
      push_neg
      constructor
      · exact hdis k (by simp [hk])
      · intro hmem
        simp at hmem
        rw [hmem] at hk
        exact hnd.1 hk

/-- C7: `save_garden_layout` with no stored layout persists the incoming
document verbatim; with an existing stored layout that decodes to a map it
persists the shallow top-level merge — every key present in the incoming
document maps to the incoming value, every key absent from it keeps its
previously stored value (nested values under a shared key are replaced
whole, since the merge only rewrites top-level keys). -/
theorem save_layout_semantics (st : DBState) (uid : Nat) (v : JValue)
    (nl old : List (String × JValue)) (hnl : (nl.map Prod.fst).Nodup) :
    (layoutOf st uid = none →
      (save_garden_layout st uid (.obj [("layout", v)])).fst = .ok ∧
      ∃ l, layoutOf (save_garden_layout st uid (.obj [("layout", v)])).snd uid = some l ∧
        l.layout_json = some v) ∧
    (∀ ex, layoutOf st uid = some ex → ex.layout_json = some (.obj old) →
      (save_garden_layout st uid (.obj [("layout", .obj nl)])).fst = .ok ∧
      ∃ merged, (∃ l, layoutOf (save_garden_layout st uid (.obj [("layout", .obj nl)])).snd uid = some l ∧
          l.layout_json = some (.obj merged)) ∧
        ∀ k, jLookup merged k = ((jLookup nl k).or (jLookup old k))) := by
  constructor
  · intro hnone
    unfold save_garden_layout saveLayoutBody
    have htr : pyTruthy (.obj [("layout", v)]) = true := by simp [pyTruthy]
    have hck : pyContainsKey (.obj [("layout", v)]) "layout" = .ok true := by
      simp [pyContainsKey, hasKey, jLookup]
    have hsub : jSubscriptE (.obj [("layout", v)]) "layout" = .ok v := by
      simp [jSubscriptE, jLookup]
    rw [htr]
    simp only [if_true, ite_true, hck]
    rw [hsub]
    simp only [Bind.bind, Except.instMonad, Except.bind, hnone]
    constructor
    · trivial
    · refine ⟨⟨st.next_layout_id, uid, some v, st.now⟩, ?_, rfl⟩
      unfold layoutOf at hnone ⊢
      simp only [List.find?_append, hnone]
      simp [Option.or]
  · intro ex hex hold
    unfold save_garden_layout saveLayoutBody
    have htr : pyTruthy (.obj [("layout", JValue.obj nl)]) = true := by simp [pyTruthy]
    have hck : pyContainsKey (.obj [("layout", JValue.obj nl)]) "layout" = .ok true := by
      simp [pyContainsKey, hasKey, jLookup]
    have hsub : jSubscriptE (.obj [("layout", JValue.obj nl)]) "layout" = .ok (JValue.obj nl) := by
      simp [jSubscriptE, jLookup]
    rw [htr]
    simp only [if_true, ite_true, hck]
    rw [hsub]
    simp only [Bind.bind, Except.instMonad, Except.bind, hex, hold]
    constructor
    · trivial
    · refine ⟨nl.foldl (fun a kv => strSet a kv.fst kv.snd) old,
        ⟨{ ex with
           layout_json := some (.obj (nl.foldl (fun acc kv => strSet acc kv.fst kv.snd) old)),
           last_modified := st.now }, ?_, rfl⟩, ?_⟩
      · have hpf : ((fun l : GardenLayoutRec => l.user_id == uid) ∘
            (fun l : GardenLayoutRec =>
              if (l.id == ex.id) = true then
                { id := l.id, user_id := l.user_id,
                  layout_json := some (JValue.obj (List.foldl (fun acc kv => strSet acc kv.1 kv.2) old nl)),
                  last_modified := st.now }
              else l)) = (fun l : GardenLayoutRec => l.user_id == uid) := by
          funext l'
          by_cases h : l'.id = ex.id <;> simp [h]
        unfold layoutOf at hex ⊢
        rw [List.find?_map, hpf, hex]
        simp
      · intro k
        exact jLookup_foldl_strSet nl old hnl k

/-- C10: when the user's stored layout text fails to decode (or decodes to
a non-map), `save_garden_layout` does not fail: it treats the existing
layout as empty, so the persisted result is exactly the incoming
document's keys and values. -/
theorem save_layout_undecodable (st : DBState) (uid : Nat) (nl : List (String × JValue))
    (ex : GardenLayoutRec) (hex : layoutOf st uid = some ex)
    (hbad : ex.layout_json = none ∨ ∃ w, ex.layout_json = some w ∧ ∀ kvs, w ≠ .obj kvs)
    (hnl : (nl.map Prod.fst).Nodup) :
    (save_garden_layout st uid (.obj [("layout", .obj nl)])).fst = .ok ∧
    ∃ l, layoutOf (save_garden_layout st uid (.obj [("layout", .obj nl)])).snd uid = some l ∧
      l.layout_json = some (.obj nl) := by
  unfold save_garden_layout saveLayoutBody
  have htr : pyTruthy (.obj [("layout", JValue.obj nl)]) = true := by simp [pyTruthy]
  have hck : pyContainsKey (.obj [("layout", JValue.obj nl)]) "layout" = .ok true := by
    simp [pyContainsKey, hasKey, jLookup]
  have hsub : jSubscriptE (.obj [("layout", JValue.obj nl)]) "layout" = .ok (JValue.obj nl) := by
    simp [jSubscriptE, jLookup]
  have hmerged :
      (match ex.layout_json with
        | none => ([] : List (String × JValue))
        | some (.obj kvs) => kvs
        | some _ => []) = [] := by
    rcases hbad with h | ⟨w, hw, hnotobj⟩
    · rw [h]
    · rw [hw]
      cases w with
      | obj kvs => exact absurd rfl (hnotobj kvs)
      | null => rfl
      | bool b => rfl
      | num q => rfl
      | str s => rfl
      | arr xs => rfl
  have hfold : nl.foldl (fun a kv => strSet a kv.fst kv.snd) [] = nl := by
    have h := foldl_strSet_disjoint nl [] hnl (by simp)
    simpa using h
  rw [htr]
  simp only [if_true, ite_true, hck]
  rw [hsub]
  simp only [Bind.bind, Except.instMonad, Except.bind, hex, hmerged]
  rw [hfold]
  constructor
  · trivial
  · refine ⟨{ ex with layout_json := some (.obj nl), last_modified := st.now }, ?_, rfl⟩
    have hpf : ((fun l : GardenLayoutRec => l.user_id == uid) ∘
        (fun l : GardenLayoutRec =>
          if (l.id == ex.id) = true then
            { id := l.id, user_id := l.user_id, layout_json := some (JValue.obj nl),
              last_modified := st.now }
          else l)) = (fun l : GardenLayoutRec => l.user_id == uid) := by
      funext l'
      by_cases h : l'.id = ex.id <;> simp [h]
    unfold layoutOf at hex ⊢
    rw [List.find?_map, hpf, hex]
    simp


/-- Witness for C7 on a user whose stored layout is
`("yard": 10, "beds": [])`, saving `("yard": 99)`. -/
theorem save_layout_semantics_witness :
    ((List.map Prod.fst [("yard", JValue.num 99)]).Nodup) ∧
    ((layoutOf c7State 1 = none →
      (save_garden_layout c7State 1 (.obj [("layout", .str "doc")])).fst = .ok ∧
      ∃ l, layoutOf (save_garden_layout c7State 1 (.obj [("layout", .str "doc")])).snd 1 = some l ∧
        l.layout_json = some (.str "doc")) ∧
    (∀ ex, layoutOf c7State 1 = some ex →
      ex.layout_json = some (.obj [("yard", JValue.num 10), ("beds", JValue.arr [])]) →
      (save_garden_layout c7State 1 (.obj [("layout", .obj [("yard", JValue.num 99)])])).fst = .ok ∧
      ∃ merged,
        (∃ l, layoutOf (save_garden_layout c7State 1 (.obj [("layout", .obj [("yard", JValue.num 99)])])).snd 1 = some l ∧
          l.layout_json = some (.obj merged)) ∧
        ∀ k, jLookup merged k =
          ((jLookup [("yard", JValue.num 99)] k).or
            (jLookup [("yard", JValue.num 10), ("beds", JValue.arr [])] k)))) :=
  ⟨by decide,
   save_layout_semantics c7State 1 (.str "doc") [("yard", JValue.num 99)]
     [("yard", JValue.num 10), ("beds", JValue.arr [])] (by decide)⟩

/-- Witness for C10 on a user whose stored layout text is not valid JSON,
saving `("a": 1)`. -/
theorem save_layout_undecodable_witness :
    (layoutOf c10State 1 = some ⟨1, 1, none, "t0"⟩) ∧
    ((List.map Prod.fst [("a", JValue.num 1)]).Nodup) ∧
    ((save_garden_layout c10State 1 (.obj [("layout", .obj [("a", JValue.num 1)])])).fst = .ok ∧
     ∃ l, layoutOf (save_garden_layout c10State 1 (.obj [("layout", .obj [("a", JValue.num 1)])])).snd 1 = some l ∧
       l.layout_json = some (.obj [("a", JValue.num 1)])) :=
  ⟨by decide, by decide,
   save_layout_undecodable c10State 1 [("a", JValue.num 1)] ⟨1, 1, none, "t0"⟩
     (by decide) (Or.inl rfl) (by decide)⟩

theorem mem_pyMapSet (m : PyMap) (k : JValue) (v : Nat) :
    ∀ kv ∈ pyMapSet m k v, kv ∈ m ∨ kv.snd = v := by
  induction m with
  | nil => intro kv hkv; simp [pyMapSet] at hkv; simp [hkv]
  | cons kv0 rest ih =>
    intro kv hkv
    obtain ⟨k0, v0⟩ := kv0
    by_cases h : pyKeyEq k0 k = true
    · simp [pyMapSet, h] at hkv
      rcases hkv with h1 | h1
      · right; simp [h1]
      · left; simp [h1]
    · have h' : pyKeyEq k0 k = false := by rw [Bool.eq_false_iff]; exact h
      simp [pyMapSet, h'] at hkv
      rcases hkv with h1 | h1
      · left; simp [h1]
      · rcases ih kv h1 with h2 | h2
        · left; simp [h2]
        · right; exact h2

theorem pyMapGet_mem (m : PyMap) (k : JValue) (v : Nat) (h : pyMapGet m k = some v) :
    ∃ kv ∈ m, kv.snd = v := by
  unfold pyMapGet at h
  cases hf : m.find? (fun p => pyKeyEq p.fst k) with
  | none => rw [hf] at h; simp at h
  | some kv =>
    rw [hf] at h
    simp at h
    exact ⟨kv, List.mem_of_find?_eq_some hf, h⟩

theorem recordIdMap_mem (m : PyMap) (old_id : JValue) (newId : Nat) (m' : PyMap)
    (h : recordIdMap m old_id newId = .ok m') :
    ∀ kv ∈ m', kv ∈ m ∨ kv.snd = newId := by
  unfold recordIdMap at h
  by_cases hnull : (old_id == JValue.null) = true
  · rw [if_pos hnull] at h
    simp at h
    subst h
    exact fun kv hkv => Or.inl hkv
  · rw [if_neg hnull] at h
    unfold pyMapSetE at h
    by_cases hh : pyHashable old_id = true
    · rw [if_pos hh] at h
      simp at h
      subst h
      exact mem_pyMapSet m old_id newId
    · rw [if_neg hh] at h
      simp at h

theorem importGardenBeds_shape (uid : Nat) (user : UserRec) (entries : List JValue) :
    ∀ m nid now beds2 m2 nid2,
    importGardenBeds uid user entries m nid now = .ok (beds2, m2, nid2) →
    nid ≤ nid2 ∧
    (∀ gb ∈ beds2, gb.user_id = uid ∧ nid ≤ gb.id ∧ gb.id < nid2) ∧
    (∀ kv ∈ m2, kv ∈ m ∨ ∃ gb ∈ beds2, gb.id = kv.snd) := by
  induction entries with
  | nil =>
    intro m nid now beds2 m2 nid2 h
    unfold importGardenBeds at h
    simp at h
    obtain ⟨h1, h2, h3⟩ := h
    subst h1; subst h2; subst h3
    exact ⟨le_rfl, by simp, fun kv hkv => Or.inl hkv⟩
  | cons e rest ih =>
    intro m nid now beds2 m2 nid2 h
    unfold importGardenBeds at h
    simp only [Bind.bind, Except.instMonad, Except.bind] at h
    cases he : jAsObjE e with
    | error msg => rw [he] at h; simp at h
    | ok kvs =>
      rw [he] at h
      simp only at h
      cases hm : recordIdMap m (jGetD kvs "id" JValue.null) nid with
      | error msg => rw [hm] at h; simp at h
      | ok m' =>
        rw [hm] at h
        simp only at h
        cases hrec : importGardenBeds uid user rest m' (nid + 1) now with
        | error msg => rw [hrec] at h; simp at h
        | ok out =>
          obtain ⟨moreBeds, m3, nid3⟩ := out
          rw [hrec] at h
          simp at h
          obtain ⟨ih1, ih2, ih3⟩ := ih m' (nid + 1) now moreBeds m3 nid3 hrec
          obtain ⟨hb, hmm, hn⟩ := h
          subst hb; subst hmm; subst hn
          refine ⟨by omega, ?_, ?_⟩
          · intro gb hgb
            rcases List.mem_cons.mp hgb with h1 | h1
            · subst h1
              refine ⟨rfl, le_rfl, ?_⟩
              show nid < nid3
              omega
            · obtain ⟨ha, hb', hc⟩ := ih2 gb h1
              exact ⟨ha, by omega, hc⟩
          · intro kv hkv
            rcases ih3 kv hkv with h1 | h1
            · rcases recordIdMap_mem m _ nid m' hm kv h1 with h2 | h2
              · exact Or.inl h2
              · refine Or.inr ⟨_, List.mem_cons_self _ _, ?_⟩
                simp [h2]
            · obtain ⟨gb, hgb, hid⟩ := h1
              exact Or.inr ⟨gb, List.mem_cons_of_mem _ hgb, hid⟩

theorem pyMapGetE_ok_some (m : PyMap) (k : JValue) (v : Nat)
    (h : pyMapGetE m k = .ok (some v)) : pyMapGet m k = some v := by
  unfold pyMapGetE at h
  by_cases hh : pyHashable k = true
  · rw [if_pos hh] at h; simpa using h
  · rw [if_neg hh] at h; simp at h

theorem importOnePlanting_resolved (ptm bedm : PyMap) (e : JValue) (nid : Nat)
    (r : PlantingRec) (h : importOnePlanting ptm bedm e nid = .ok (some r)) :
    (∃ kv ∈ ptm, kv.snd = r.plant_type_id) ∧ (∃ kv ∈ bedm, kv.snd = r.bed_id) ∧ r.id = nid := by
  unfold importOnePlanting at h
  simp only [Bind.bind, Except.instMonad, Except.bind] at h
  cases he : jAsObjE e with
  | error msg => rw [he] at h; simp at h
  | ok kvs =>
    rw [he] at h
    simp only at h
    cases hpt : pyMapGetE ptm (jGetD kvs "plant_type_id" JValue.null) with
    | error m => rw [hpt] at h; simp at h
    | ok optPt =>
      rw [hpt] at h
      simp only at h
      cases hbed : pyMapGetE bedm (jGetD kvs "bed_id" JValue.null) with
      | error m => rw [hbed] at h; simp at h
      | ok optBed =>
        rw [hbed] at h
        simp only at h
        cases optPt with
        | none => simp at h
        | some ptid =>
          cases optBed with
          | none => simp at h
          | some bedid =>
            simp only at h
            cases hdp : parsePlantingDate (jGetD kvs "date_planted" JValue.null) datetimeDateFromIsoformat with
            | error m => rw [hdp] at h; simp at h
            | ok dp =>
              rw [hdp] at h
              simp only at h
              cases hhd : parsePlantingDate (jGetD kvs "projected_harvest_date" JValue.null) dateFromIsoformat with
              | error m => rw [hhd] at h; simp at h
              | ok hd =>
                rw [hhd] at h
                simp at h
                have hp := pyMapGet_mem ptm _ ptid (pyMapGetE_ok_some _ _ _ hpt)
                have hb := pyMapGet_mem bedm _ bedid (pyMapGetE_ok_some _ _ _ hbed)
                subst h
                exact ⟨hp, hb, rfl⟩

theorem importPlantings_shape (ptm bedm : PyMap) (entries : List JValue) :
    ∀ nid out nid2, importPlantings ptm bedm entries nid = .ok (out, nid2) →
    ∀ p ∈ out, (∃ kv ∈ ptm, kv.snd = p.plant_type_id) ∧ (∃ kv ∈ bedm, kv.snd = p.bed_id) := by
  induction entries with
  | nil =>
    intro nid out nid2 h
    unfold importPlantings at h
    simp at h
    obtain ⟨h1, _⟩ := h
    subst h1
    simp
  | cons e rest ih =>
    intro nid out nid2 h
    unfold importPlantings at h
    simp only [Bind.bind, Except.instMonad, Except.bind] at h
    cases hone : importOnePlanting ptm bedm e nid with
    | error m => rw [hone] at h; simp at h
    | ok o =>
      rw [hone] at h
      simp only at h
      cases o with
      | none => exact ih nid out nid2 h
      | some r =>
        simp only at h
        cases hrec : importPlantings ptm bedm rest (nid + 1) with
        | error m => rw [hrec] at h; simp at h
        | ok out2 =>
          obtain ⟨more, nid3⟩ := out2
          rw [hrec] at h
          simp at h
          obtain ⟨h1, h2⟩ := h
          subst h1
          intro p hp
          rcases List.mem_cons.mp hp with h3 | h3
          · subst h3
            obtain ⟨hpt, hbed, _⟩ := importOnePlanting_resolved ptm bedm e nid p hone
            exact ⟨hpt, hbed⟩
          · exact ih (nid + 1) more nid3 hrec p h3

theorem importLayout_user (uid : Nat) (bedm : PyMap) (ld : JValue) (nid : Nat) (now : String)
    (ls : List GardenLayoutRec) (nid2 : Nat)
    (h : importLayout uid bedm ld nid now = .ok (ls, nid2)) :
    ∀ l ∈ ls, l.user_id = uid := by
  unfold importLayout at h
  by_cases ht : pyTruthy ld = true
  · rw [if_pos ht] at h
    simp only [Bind.bind, Except.instMonad, Except.bind] at h
    cases hobj : jAsObjE ld with
    | error m => rw [hobj] at h; simp at h
    | ok ldKvs =>
      rw [hobj] at h
      simp only at h
      cases hl : jGetD ldKvs "layout" JValue.null with
      | obj content =>
        rw [hl] at h
        simp only [pure, Except.pure] at h
        cases hbeds : jLookup content "beds" with
        | none =>
          rw [hbeds] at h
          simp at h
          obtain ⟨h1, _⟩ := h
          subst h1
          intro l hl2
          simp at hl2
          subst hl2
          rfl
        | some v =>
          rw [hbeds] at h
          cases v with
          | arr items =>
            simp only at h
            cases hrw : rewriteBedItems bedm items with
            | error m2 => rw [hrw] at h; simp at h
            | ok items2 =>
              rw [hrw] at h
              simp at h
              obtain ⟨h1, _⟩ := h
              subst h1
              intro l hl2
              simp at hl2
              subst hl2
              rfl
          | null =>
            simp at h
            obtain ⟨h1, _⟩ := h
            subst h1
            intro l hl2
            simp at hl2
            subst hl2
            rfl
          | bool b =>
            simp at h
            obtain ⟨h1, _⟩ := h
            subst h1
            intro l hl2
            simp at hl2
            subst hl2
            rfl
          | num q =>
            simp at h
            obtain ⟨h1, _⟩ := h
            subst h1
            intro l hl2
            simp at hl2
            subst hl2
            rfl
          | str s2 =>
            simp at h
            obtain ⟨h1, _⟩ := h
            subst h1
            intro l hl2
            simp at hl2
            subst hl2
            rfl
          | obj kvs2 =>
            simp at h
            obtain ⟨h1, _⟩ := h
            subst h1
            intro l hl2
            simp at hl2
            subst hl2
            rfl
      | null => rw [hl] at h; simp at h; obtain ⟨h1, _⟩ := h; subst h1; simp
      | bool b => rw [hl] at h; simp at h; obtain ⟨h1, _⟩ := h; subst h1; simp
      | num q => rw [hl] at h; simp at h; obtain ⟨h1, _⟩ := h; subst h1; simp
      | str s => rw [hl] at h; simp at h; obtain ⟨h1, _⟩ := h; subst h1; simp
      | arr xs => rw [hl] at h; simp at h; obtain ⟨h1, _⟩ := h; subst h1; simp
  · rw [if_neg ht] at h
    simp at h
    obtain ⟨h1, _⟩ := h
    subst h1
    simp

theorem importBody_inv (st : DBState) (uid : Nat) (user : UserRec)
    (doc : List (String × JValue)) (st2 : DBState)
    (h : importBody st uid user doc = .ok st2) :
    ∃ ptEntries plant_types2 ptMap nextPt bedEntries newBeds bedMap nextBed
      plantingEntries newPlantings nextPlanting newLayouts nextLayout,
      jIterE (jGetD doc "plant_types" (.arr [])) = .ok ptEntries ∧
      importPlantTypes st.plant_types ptEntries [] st.next_plant_type_id = .ok (plant_types2, ptMap, nextPt) ∧
      jIterE (jGetD doc "garden_beds" (.arr [])) = .ok bedEntries ∧
      importGardenBeds uid user bedEntries [] st.next_bed_id st.now = .ok (newBeds, bedMap, nextBed) ∧
      jIterE (jGetD doc "plantings" (.arr [])) = .ok plantingEntries ∧
      importPlantings ptMap bedMap plantingEntries st.next_planting_id = .ok (newPlantings, nextPlanting) ∧
      importLayout uid bedMap (jGetD doc "garden_layout" .null) st.next_layout_id st.now = .ok (newLayouts, nextLayout) ∧
      st2 = { st with
        plant_types := plant_types2,
        garden_beds := st.garden_beds.filter (fun gb => !(gb.user_id == uid)) ++ newBeds,
        plantings := st.plantings.filter
          (fun p => !(((plantingsOf st uid).map (fun q => q.id)).contains p.id)) ++ newPlantings,
        layouts := st.layouts.filter (fun l => !(l.user_id == uid)) ++ newLayouts,
        next_plant_type_id := nextPt, next_bed_id := nextBed,
        next_planting_id := nextPlanting, next_layout_id := nextLayout } := by
  unfold importBody at h
  simp only [Bind.bind, Except.instMonad, Except.bind] at h
  cases h1 : jIterE (jGetD doc "plant_types" (JValue.arr [])) with
  | error m => rw [h1] at h; simp at h
  | ok ptEntries =>
    rw [h1] at h
    simp only at h
    cases h2 : importPlantTypes st.plant_types ptEntries [] st.next_plant_type_id with
    | error m => rw [h2] at h; simp at h
    | ok out2 =>
      obtain ⟨plant_types2, ptMap, nextPt⟩ := out2
      rw [h2] at h
      simp only at h
      cases h3 : jIterE (jGetD doc "garden_beds" (JValue.arr [])) with
      | error m => rw [h3] at h; simp at h
      | ok bedEntries =>
        rw [h3] at h
        simp only at h
        cases h4 : importGardenBeds uid user bedEntries [] st.next_bed_id st.now with
        | error m => rw [h4] at h; simp at h
        | ok out4 =>
          obtain ⟨newBeds, bedMap, nextBed⟩ := out4
          rw [h4] at h
          simp only at h
          cases h5 : jIterE (jGetD doc "plantings" (JValue.arr [])) with
          | error m => rw [h5] at h; simp at h
          | ok plantingEntries =>
            rw [h5] at h
            simp only at h
            cases h6 : importPlantings ptMap bedMap plantingEntries st.next_planting_id with
            | error m => rw [h6] at h; simp at h
            | ok out6 =>
              obtain ⟨newPlantings, nextPlanting⟩ := out6
              rw [h6] at h
              simp only at h
              cases h7 : importLayout uid bedMap (jGetD doc "garden_layout" JValue.null) st.next_layout_id st.now with
              | error m => rw [h7] at h; simp at h
              | ok out7 =>
                obtain ⟨newLayouts, nextLayout⟩ := out7
                rw [h7] at h
                simp only at h
                refine ⟨ptEntries, plant_types2, ptMap, nextPt, bedEntries, newBeds, bedMap, nextBed,
                  plantingEntries, newPlantings, nextPlanting, newLayouts, nextLayout,
                  rfl, h2, rfl, h4, rfl, h6, h7, ?_⟩
                rw [Except.ok.injEq] at h
                exact h.symm

/-- C9: an import by one user leaves every other user's garden beds,
plantings (those joined through the other user's beds) and garden layout
unchanged: the deletions select only rows owned by the importing user and
every created bed, planting and layout row is owned by the importing
user. -/
theorem import_other_users_unchanged (st : DBState) (uid : Nat)
    (doc : List (String × JValue)) (uid2 : Nat) (hw : wfState st) (hne : uid2 ≠ uid) :
    bedsOf (import_user_data st uid doc).snd uid2 = bedsOf st uid2 ∧
    plantingsOf (import_user_data st uid doc).snd uid2 = plantingsOf st uid2 ∧
    (import_user_data st uid doc).snd.layouts.filter (fun l => l.user_id == uid2) =
      st.layouts.filter (fun l => l.user_id == uid2) := by
  obtain ⟨hwb, hwblt, hwp, hwplt⟩ := hw
  unfold import_user_data
  cases hu : findUser st uid with
  | none => exact ⟨rfl, rfl, rfl⟩
  | some user =>
    simp only
    by_cases hall : (expectedImportKeys.all (fun k => hasKey doc k)) = true
    case neg =>
      rw [if_neg hall]
      exact ⟨rfl, rfl, rfl⟩
    case pos =>
      rw [if_pos hall]
      cases hbody : importBody st uid user doc with
      | error msg => exact ⟨rfl, rfl, rfl⟩
      | ok st2 =>
        simp only
        obtain ⟨ptE, pts2, ptMap, nextPt, bedE, newBeds, bedMap, nextBed, plE, newPl,
          nextPl, newLs, nextL, _, hpt, _, hbeds, _, hplant, hlay, hst2⟩ :=
          importBody_inv st uid user doc st2 hbody
        subst hst2
        obtain ⟨hnle, hbedprops, hmapprops⟩ :=
          importGardenBeds_shape uid user bedE [] st.next_bed_id st.now newBeds bedMap nextBed hbeds
        refine ⟨?_, ?_, ?_⟩
        · -- garden beds of uid2 unchanged
          unfold bedsOf
          simp only
          rw [List.filter_append]
          have h1 : newBeds.filter (fun gb => gb.user_id == uid2) = [] := by
            rw [List.filter_eq_nil_iff]
            intro gb hgb
            have hu2 := (hbedprops gb hgb).1
            simp only [hu2, beq_iff_eq]
            exact fun hc => hne hc.symm
          rw [h1, List.append_nil, List.filter_filter]
          apply List.filter_congr
          intro gb _
          by_cases hgu : gb.user_id = uid2
          · simp only [hgu, beq_iff_eq]
            simp [hne]
          · simp [hgu]
        · -- plantings of uid2 unchanged
          unfold plantingsOf
          simp only
          rw [List.filter_append]
          have hnewpl : newPl.filter (fun p =>
              (List.filter (fun gb => !(gb.user_id == uid)) st.garden_beds ++ newBeds).any
                (fun gb => p.bed_id == gb.id && gb.user_id == uid2)) = [] := by
            rw [List.filter_eq_nil_iff]
            intro p hp hc
            rw [List.any_eq_true] at hc
            obtain ⟨gb, hgb, hgbc⟩ := hc
            simp only [Bool.and_eq_true, beq_iff_eq] at hgbc
            obtain ⟨hid, hu2⟩ := hgbc
            obtain ⟨hptref, hbedref⟩ :=
              importPlantings_shape ptMap bedMap plE st.next_planting_id newPl nextPl hplant p hp
            obtain ⟨kv, hkv, hkveq⟩ := hbedref
            rcases hmapprops kv hkv with hfalse | ⟨gb', hgb', hgb'id⟩
            · simp at hfalse
            · have hge : st.next_bed_id ≤ p.bed_id := by
                have := (hbedprops gb' hgb').2.1
                omega
              rcases List.mem_append.mp hgb with hgb1 | hgb2
              · have hmem : gb ∈ st.garden_beds := List.mem_of_mem_filter hgb1
                have := hwblt gb hmem
                omega
              · have := (hbedprops gb hgb2).1
                exact hne (by rw [← hu2, this])
          rw [hnewpl, List.append_nil]
          have hJ : ∀ p ∈ st.plantings.filter
              (fun p => !(((plantingsOf st uid).map (fun q => q.id)).contains p.id)),
              ((List.filter (fun gb => !(gb.user_id == uid)) st.garden_beds ++ newBeds).any
                (fun gb => p.bed_id == gb.id && gb.user_id == uid2)) =
              (st.garden_beds.any (fun gb => p.bed_id == gb.id && gb.user_id == uid2)) := by
            intro p hp
            have hpmem : p ∈ st.plantings := List.mem_of_mem_filter hp
            have hlt := hwplt p hpmem
            rw [Bool.eq_iff_iff]
            constructor
            · intro ha
              rw [List.any_eq_true] at ha ⊢
              obtain ⟨gb, hgb, hcond⟩ := ha
              rcases List.mem_append.mp hgb with h1 | h2
              · exact ⟨gb, List.mem_of_mem_filter h1, hcond⟩
              · exfalso
                simp only [Bool.and_eq_true, beq_iff_eq] at hcond
                have := (hbedprops gb h2).2.1
                omega
            · intro ha
              rw [List.any_eq_true] at ha ⊢
              obtain ⟨gb, hgb, hcond⟩ := ha
              refine ⟨gb, List.mem_append_left _ ?_, hcond⟩
              rw [List.mem_filter]
              refine ⟨hgb, ?_⟩
              simp only [Bool.and_eq_true, beq_iff_eq] at hcond
              simp only [hcond.2, beq_iff_eq]
              simp
              exact fun hcc => hne (hcc ▸ rfl)
          refine (List.filter_congr hJ).trans ?_
          rw [List.filter_filter]
          apply List.filter_congr
          intro p hp
          by_cases hJp : (st.garden_beds.any (fun gb => p.bed_id == gb.id && gb.user_id == uid2)) = true
          · rw [hJp, Bool.true_and]
            have hnd : ((plantingsOf st uid).map (fun q => q.id)).contains p.id = false := by
              rw [Bool.eq_false_iff]
              intro hcontains
              have hmem : p.id ∈ (plantingsOf st uid).map (fun q => q.id) :=
                List.elem_iff.mp hcontains
              rw [List.mem_map] at hmem
              obtain ⟨q, hq, hqid⟩ := hmem
              have hqmem : q ∈ st.plantings := List.mem_of_mem_filter hq
              have hqp : q = p := List.inj_on_of_nodup_map hwp hqmem hp hqid
              subst hqp
              -- q joined a uid-bed; hJp gives a uid2-bed with the same id
              unfold plantingsOf at hq
              rw [List.mem_filter] at hq
              rw [List.any_eq_true] at hJp
              obtain ⟨gb2, hgb2, hcond2⟩ := hJp
              have hq2 := hq.2
              rw [List.any_eq_true] at hq2
              obtain ⟨gb1, hgb1, hcond1⟩ := hq2
              simp only [Bool.and_eq_true, beq_iff_eq] at hcond1 hcond2
              have hgbeq : gb1 = gb2 :=
                List.inj_on_of_nodup_map hwb hgb1 hgb2 (by omega)
              subst hgbeq
              exact hne (by rw [← hcond2.2, hcond1.2])
            rw [hnd]
            rfl
          · have hJp' : (st.garden_beds.any (fun gb => p.bed_id == gb.id && gb.user_id == uid2)) = false := by
              rw [Bool.eq_false_iff]; exact hJp
            rw [hJp']
            simp
        · -- layouts of uid2 unchanged
          simp only
          rw [List.filter_append]
          have h1 : newLs.filter (fun l => l.user_id == uid2) = [] := by
            rw [List.filter_eq_nil_iff]
            intro l hl
            have hu2 := importLayout_user uid bedMap (jGetD doc "garden_layout" JValue.null)
              st.next_layout_id st.now newLs nextL hlay l hl
            simp only [hu2, beq_iff_eq]
            exact fun hc => hne hc.symm
          rw [h1, List.append_nil, List.filter_filter]
          apply List.filter_congr
          intro l _
          by_cases hgu : l.user_id = uid2
          · simp only [hgu, beq_iff_eq]
            simp [hne]
          · simp [hgu]


/-- Witness for C9: user 1 of the two-user fixture imports a document;
user 2's rows are untouched. -/
theorem import_other_users_unchanged_witness :
    wfState c9State ∧ (2 : Nat) ≠ 1 ∧
    (bedsOf (import_user_data c9State 1 c9Doc).snd 2 = bedsOf c9State 2 ∧
     plantingsOf (import_user_data c9State 1 c9Doc).snd 2 = plantingsOf c9State 2 ∧
     (import_user_data c9State 1 c9Doc).snd.layouts.filter (fun l => l.user_id == 2) =
       c9State.layouts.filter (fun l => l.user_id == 2)) :=
  ⟨by decide, by decide, import_other_users_unchanged c9State 1 c9Doc 2 (by decide) (by decide)⟩


theorem digitVal_digitChar (r : Nat) (h : r < 10) : digitVal (digitChar r) = r := by
  interval_cases r <;> rfl

theorem isDigitChar_digitChar (r : Nat) (h : r < 10) : isDigitChar (digitChar r) = true := by
  interval_cases r <;> rfl

theorem daysInMonth_le_31 (y m : Nat) : daysInMonth y m ≤ 31 := by
  unfold daysInMonth
  by_cases h2 : (m == 2) = true
  · rw [if_pos h2]
    by_cases hl : isLeapYear y = true <;> simp [hl]
  · rw [if_neg h2]
    by_cases h30 : (m == 4 || m == 6 || m == 9 || m == 11) = true <;> simp [h30]

theorem isoformatDate_toList (d : CalDate) :
    (isoformatDate d).toList =
      [digitChar (d.year / 1000 % 10), digitChar (d.year / 100 % 10),
       digitChar (d.year / 10 % 10), digitChar (d.year % 10), '-',
       digitChar (d.month / 10 % 10), digitChar (d.month % 10), '-',
       digitChar (d.day / 10 % 10), digitChar (d.day % 10)] := by
  rfl

theorem parse_isoformat_roundtrip (d : CalDate) (hv : validCalDate d = true) :
    datetimeDateFromIsoformat (isoformatDate d) = some d := by
  obtain ⟨y, m, dd⟩ := d
  unfold validCalDate at hv
  simp only [Bool.and_eq_true, decide_eq_true_eq] at hv
  obtain ⟨⟨⟨⟨⟨hy1, hy2⟩, hm1⟩, hm2⟩, hd1⟩, hd2⟩ := hv
  unfold datetimeDateFromIsoformat
  rw [isoformatDate_toList]
  simp only
  unfold parseIsoDateChars
  have hds : ∀ r : Nat, r < 10 → isDigitChar (digitChar r) = true := isDigitChar_digitChar
  simp only [hds (y / 1000 % 10) (Nat.mod_lt _ (by norm_num)),
    hds (y / 100 % 10) (Nat.mod_lt _ (by norm_num)),
    hds (y / 10 % 10) (Nat.mod_lt _ (by norm_num)),
    hds (y % 10) (Nat.mod_lt _ (by norm_num)),
    hds (m / 10 % 10) (Nat.mod_lt _ (by norm_num)),
    hds (m % 10) (Nat.mod_lt _ (by norm_num)),
    hds (dd / 10 % 10) (Nat.mod_lt _ (by norm_num)),
    hds (dd % 10) (Nat.mod_lt _ (by norm_num))]
  simp only [digitVal_digitChar (y / 1000 % 10) (Nat.mod_lt _ (by norm_num)),
    digitVal_digitChar (y / 100 % 10) (Nat.mod_lt _ (by norm_num)),
    digitVal_digitChar (y / 10 % 10) (Nat.mod_lt _ (by norm_num)),
    digitVal_digitChar (y % 10) (Nat.mod_lt _ (by norm_num)),
    digitVal_digitChar (m / 10 % 10) (Nat.mod_lt _ (by norm_num)),
    digitVal_digitChar (m % 10) (Nat.mod_lt _ (by norm_num)),
    digitVal_digitChar (dd / 10 % 10) (Nat.mod_lt _ (by norm_num)),
    digitVal_digitChar (dd % 10) (Nat.mod_lt _ (by norm_num))]
  have hyv : ((y / 1000 % 10 * 10 + y / 100 % 10) * 10 + y / 10 % 10) * 10 + y % 10 = y := by
    omega
  have hmv : m / 10 % 10 * 10 + m % 10 = m := by omega
  have hd31 : dd ≤ 31 := le_trans hd2 (daysInMonth_le_31 y m)
  have hdv : dd / 10 % 10 * 10 + dd % 10 = dd := by omega
  rw [hyv, hmv, hdv]
  simp [hy1, hm1, hm2, hd1, hd2]

theorem replaceFirstPlantType_fields (pts : List PlantTypeRec) (cn : JValue)
    (kvs : List (String × JValue)) :
    (replaceFirstPlantType pts cn kvs).map (fun x => x.id) = pts.map (fun x => x.id) ∧
    (replaceFirstPlantType pts cn kvs).map (fun x => x.common_name) =
      pts.map (fun x => x.common_name) ∧
    (replaceFirstPlantType pts cn kvs).length = pts.length := by
  induction pts with
  | nil => simp [replaceFirstPlantType]
  | cons pt rest ih =>
    by_cases h : (pt.common_name == cn) = true
    · simp [replaceFirstPlantType, h, updatePlantType]
    · have h' : (pt.common_name == cn) = false := by rw [Bool.eq_false_iff]; exact h
      simp [replaceFirstPlantType, h', ih]

theorem pyKeyEq_num_refl (q : ℚ) : pyKeyEq (.num q) (.num q) = true := by
  simp [pyKeyEq]

theorem pyMapGet_pyMapSet_isSome (m : PyMap) (k : JValue) (v : Nat) (k' : JValue)
    (h : (pyMapGet m k').isSome = true) :
    (pyMapGet (pyMapSet m k v) k').isSome = true := by
  induction m with
  | nil => simp [pyMapGet] at h
  | cons kv0 rest ih =>
    obtain ⟨k0, v0⟩ := kv0
    by_cases he : pyKeyEq k0 k = true
    · simp only [pyMapSet, he, if_true, ite_true]
      unfold pyMapGet at h ⊢
      simp only [List.find?_cons] at h ⊢
      cases hk : pyKeyEq k0 k' with
      | true => simp
      | false => rw [hk] at h; simpa using h
    · have he' : pyKeyEq k0 k = false := by rw [Bool.eq_false_iff]; exact he
      simp only [pyMapSet, he', Bool.false_eq_true, ite_false]
      unfold pyMapGet at h ⊢
      simp only [List.find?_cons] at h ⊢
      cases hk : pyKeyEq k0 k' with
      | true => simp
      | false =>
        rw [hk] at h
        simp only at h ⊢
        exact ih h

theorem pyMapGet_pyMapSet_self (m : PyMap) (q : ℚ) (v : Nat) :
    pyMapGet (pyMapSet m (.num q) v) (.num q) = some v := by
  induction m with
  | nil => simp [pyMapSet, pyMapGet, pyKeyEq_num_refl]
  | cons kv0 rest ih =>
    obtain ⟨k0, v0⟩ := kv0
    by_cases he : pyKeyEq k0 (.num q) = true
    · simp [pyMapSet, he, pyMapGet, List.find?_cons]
    · have he' : pyKeyEq k0 (.num q) = false := by rw [Bool.eq_false_iff]; exact he
      simp only [pyMapSet, he', Bool.false_eq_true, ite_false]
      unfold pyMapGet at ih ⊢
      simp only [List.find?_cons, he']
      simpa using ih

theorem importPlantTypes_export (orig : List PlantTypeRec) :
    ∀ (pts : List PlantTypeRec) (m : PyMap) (nid : Nat),
    (∀ pt ∈ orig, pyTruthy pt.common_name = true) →
    (∀ pt ∈ orig, pt.common_name ∈ pts.map (fun x => x.common_name)) →
    ∃ pts2 m2,
      importPlantTypes pts (orig.map ptToDict) m nid = .ok (pts2, m2, nid) ∧
      pts2.map (fun x => x.id) = pts.map (fun x => x.id) ∧
      pts2.map (fun x => x.common_name) = pts.map (fun x => x.common_name) ∧
      pts2.length = pts.length ∧
      (∀ kv ∈ m2, kv ∈ m ∨ kv.snd ∈ pts.map (fun x => x.id)) ∧
      (∀ k, (pyMapGet m k).isSome = true → (pyMapGet m2 k).isSome = true) ∧
      (∀ pt ∈ orig, (pyMapGet m2 (.num pt.id)).isSome = true) := by
  induction orig with
  | nil =>
    intro pts m nid _ _
    exact ⟨pts, m, by simp [importPlantTypes], rfl, rfl, rfl,
      fun kv h => Or.inl h, fun k h => h, by simp⟩
  | cons pt rest ih =>
    intro pts m nid htr hmem
    have hname : pt.common_name ∈ pts.map (fun x => x.common_name) := hmem pt (by simp)
    have hfind : (pts.find? (fun x => x.common_name == pt.common_name)).isSome = true := by
      rw [List.find?_isSome]
      rw [List.mem_map] at hname
      obtain ⟨x, hx, hxn⟩ := hname
      exact ⟨x, hx, by simp [hxn]⟩
    obtain ⟨q, hq⟩ := Option.isSome_iff_exists.mp hfind
    have hqmem : q ∈ pts := List.mem_of_find?_eq_some hq
    have hqid : q.id ∈ pts.map (fun x => x.id) := List.mem_map.mpr ⟨q, hqmem, rfl⟩
    have hstep : importPlantTypes pts ((pt :: rest).map ptToDict) m nid =
        importPlantTypes (replaceFirstPlantType pts pt.common_name (ptToDictFields pt))
          (rest.map ptToDict) (pyMapSet m (.num pt.id) q.id) nid := by
      rw [List.map_cons]
      conv_lhs => rw [importPlantTypes]
      have h1 : jAsObjE (ptToDict pt) = .ok (ptToDictFields pt) := by
        simp [ptToDict, jAsObjE]
      rw [h1]
      simp only [Bind.bind, Except.instMonad, Except.bind]
      have h2 : jGetD (ptToDictFields pt) "common_name" JValue.null = pt.common_name := by
        simp [ptToDictFields, jGetD, jLookup]
      have h3 : jGetD (ptToDictFields pt) "id" JValue.null = .num pt.id := by
        simp [ptToDictFields, jGetD, jLookup]
      rw [h2, h3, htr pt (by simp)]
      simp only [if_true, ite_true, hq]
      have h4 : recordIdMap m (.num pt.id) q.id = .ok (pyMapSet m (.num pt.id) q.id) := by
        unfold recordIdMap pyMapSetE
        rfl
      rw [h4]
    obtain ⟨hids, hnames, hlen⟩ :=
      replaceFirstPlantType_fields pts pt.common_name (ptToDictFields pt)
    obtain ⟨pts2, m2, hrun, hids2, hnames2, hlen2, hmem2, hgrow2, hcover2⟩ :=
      ih (replaceFirstPlantType pts pt.common_name (ptToDictFields pt))
        (pyMapSet m (.num pt.id) q.id) nid
        (fun x hx => htr x (by simp [hx]))
        (fun x hx => by rw [hnames]; exact hmem x (by simp [hx]))
    refine ⟨pts2, m2, ?_, ?_, ?_, ?_, ?_, ?_, ?_⟩
    · rw [hstep]; exact hrun
    · rw [hids2, hids]
    · rw [hnames2, hnames]
    · rw [hlen2, hlen]
    · intro kv hkv
      rcases hmem2 kv hkv with h1 | h1
      · rcases mem_pyMapSet m (.num pt.id) q.id kv h1 with h2 | h2
        · exact Or.inl h2
        · exact Or.inr (by rw [h2]; exact hqid)
      · rw [hids] at h1
        exact Or.inr h1
    · intro k hk
      exact hgrow2 k (pyMapGet_pyMapSet_isSome m (.num pt.id) q.id k hk)
    · intro x hx
      rcases List.mem_cons.mp hx with h1 | h1
      · subst h1
        apply hgrow2
        rw [pyMapGet_pyMapSet_self]
        rfl
      · exact hcover2 x h1

theorem importGardenBeds_export (origBeds : List GardenBedRec) :
    ∀ (uid : Nat) (user : UserRec) (m : PyMap) (nid : Nat) (now : String),
    ∃ newBeds m2,
      importGardenBeds uid user (origBeds.map bedToDict) m nid now =
        .ok (newBeds, m2, nid + origBeds.length) ∧
      newBeds.length = origBeds.length ∧
      (∀ k, (pyMapGet m k).isSome = true → (pyMapGet m2 k).isSome = true) ∧
      (∀ gb ∈ origBeds, (pyMapGet m2 (.num gb.id)).isSome = true) := by
  induction origBeds with
  | nil =>
    intro uid user m nid now
    exact ⟨[], m, by simp [importGardenBeds], rfl, fun k h => h, by simp⟩
  | cons gb rest ih =>
    intro uid user m nid now
    obtain ⟨moreBeds, m2, hrun, hlen, hgrow, hcover⟩ :=
      ih uid user (pyMapSet m (.num gb.id) nid) (nid + 1) now
    refine ⟨⟨nid, uid, jGetD (bedToDictFields gb) "name" (.str "Unnamed Bed"),
      jGetD (bedToDictFields gb) "shape" (.str "rectangle"),
      jGetD (bedToDictFields gb) "shape_params" (.obj []), .null, .null,
      jGetD (bedToDictFields gb) "unit_measure" (.str user.preferred_units),
      jGetD (bedToDictFields gb) "notes" .null, now, now⟩ :: moreBeds, m2, ?_, ?_, ?_, ?_⟩
    · rw [List.map_cons]
      conv_lhs => rw [importGardenBeds]
      have h1 : jAsObjE (bedToDict gb) = .ok (bedToDictFields gb) := by
        simp [bedToDict, jAsObjE]
      rw [h1]
      simp only [Bind.bind, Except.instMonad, Except.bind]
      have h3 : jGetD (bedToDictFields gb) "id" JValue.null = .num gb.id := by
        simp [bedToDictFields, jGetD, jLookup]
      rw [h3]
      have h4 : recordIdMap m (.num gb.id) nid = .ok (pyMapSet m (.num gb.id) nid) := by
        unfold recordIdMap pyMapSetE
        rfl
      rw [h4]
      simp only
      rw [hrun]
      have harith : nid + 1 + rest.length = nid + (rest.length + 1) := by omega
      simp [harith]
    · simp [hlen]
    · intro k hk
      exact hgrow k (pyMapGet_pyMapSet_isSome m (.num gb.id) nid k hk)
    · intro x hx
      rcases List.mem_cons.mp hx with h1 | h1
      · subst h1
        apply hgrow
        rw [pyMapGet_pyMapSet_self]
        rfl
      · exact hcover x h1


theorem isoformat_truthy (d : CalDate) : pyTruthy (.str (isoformatDate d)) = true := by
  simp only [pyTruthy, Bool.not_eq_true']
  rw [beq_eq_false_iff_ne]
  intro h
  have h2 := congrArg String.toList h
  rw [isoformatDate_toList] at h2
  simp at h2

theorem importPlantings_export (pts1 : List PlantTypeRec) (origPl : List PlantingRec) :
    ∀ (ptm bedm : PyMap) (nid : Nat),
    (∀ p ∈ origPl, (pyMapGet ptm (.num p.plant_type_id)).isSome = true) →
    (∀ p ∈ origPl, (pyMapGet bedm (.num p.bed_id)).isSome = true) →
    (∀ p ∈ origPl, ∀ d, p.date_planted = some d → validCalDate d = true) →
    ∃ out, importPlantings ptm bedm (origPl.map (plantingToDict pts1)) nid =
        .ok (out, nid + origPl.length) ∧
      out.length = origPl.length := by
  induction origPl with
  | nil =>
    intro ptm bedm nid _ _ _
    exact ⟨[], by simp [importPlantings], rfl⟩
  | cons p rest ih =>
    intro ptm bedm nid hpt hbed hdates
    obtain ⟨ptid, hptid⟩ := Option.isSome_iff_exists.mp (hpt p (by simp))
    obtain ⟨bedid, hbedid⟩ := Option.isSome_iff_exists.mp (hbed p (by simp))
    have hone : importOnePlanting ptm bedm (plantingToDict pts1 p) nid =
        .ok (some ⟨nid, bedid, ptid, .null, .null, p.date_planted, none,
          jGetD (plantingToDictFields pts1 p) "notes" .null, true,
          jGetD (plantingToDictFields pts1 p) "quantity" (.num 1)⟩) := by
      unfold importOnePlanting
      have h1 : jAsObjE (plantingToDict pts1 p) = .ok (plantingToDictFields pts1 p) := by
        simp [plantingToDict, jAsObjE]
      rw [h1]
      simp only [Bind.bind, Except.instMonad, Except.bind]
      have h2 : jGetD (plantingToDictFields pts1 p) "plant_type_id" JValue.null =
          .num p.plant_type_id := by
        simp [plantingToDictFields, jGetD, jLookup]
      have h3 : jGetD (plantingToDictFields pts1 p) "bed_id" JValue.null =
          .num p.bed_id := by
        simp [plantingToDictFields, jGetD, jLookup]
      rw [h2, h3]
      have h4 : pyMapGetE ptm (.num p.plant_type_id) = .ok (some ptid) := by
        unfold pyMapGetE
        simp [pyHashable, hptid]
      have h5 : pyMapGetE bedm (.num p.bed_id) = .ok (some bedid) := by
        unfold pyMapGetE
        simp [pyHashable, hbedid]
      rw [h4]
      simp only
      rw [h5]
      simp only
      have h6 : jGetD (plantingToDictFields pts1 p) "date_planted" JValue.null =
          optDateToJson p.date_planted := by
        simp [plantingToDictFields, jGetD, jLookup]
      have h7 : jGetD (plantingToDictFields pts1 p) "projected_harvest_date" JValue.null =
          JValue.null := by
        simp [plantingToDictFields, jGetD, jLookup]
      rw [h6, h7]
      have h8 : parsePlantingDate (optDateToJson p.date_planted) datetimeDateFromIsoformat =
          .ok p.date_planted := by
        cases hdp : p.date_planted with
        | none => simp [optDateToJson, parsePlantingDate, pyTruthy]
        | some d =>
          have hv := hdates p (by simp) d hdp
          simp only [optDateToJson]
          unfold parsePlantingDate
          rw [isoformat_truthy d]
          simp only [if_true, ite_true]
          rw [parse_isoformat_roundtrip d hv]
      have h9 : parsePlantingDate JValue.null dateFromIsoformat = .ok none := by
        simp [parsePlantingDate, pyTruthy]
      rw [h8]
      simp only
      rw [h9]
    obtain ⟨out, hrun, hlen⟩ := ih ptm bedm (nid + 1)
      (fun x hx => hpt x (by simp [hx])) (fun x hx => hbed x (by simp [hx]))
      (fun x hx => hdates x (by simp [hx]))
    refine ⟨⟨nid, bedid, ptid, .null, .null, p.date_planted, none,
      jGetD (plantingToDictFields pts1 p) "notes" .null, true,
      jGetD (plantingToDictFields pts1 p) "quantity" (.num 1)⟩ :: out, ?_, by simp [hlen]⟩
    rw [List.map_cons]
    conv_lhs => rw [importPlantings]
    rw [hone]
    simp only [Bind.bind, Except.instMonad, Except.bind]
    rw [hrun]
    have harith : nid + 1 + rest.length = nid + (rest.length + 1) := by omega
    simp [harith]


/-- Soundness condition for a stored layout document: any `id` inside its
`beds` list entries is hashable (a non-container), so the bed-id rewrite
of import step 6 cannot raise. -/
theorem rewriteBedItems_ok (bedm : PyMap) (items : List JValue)
    (h : items.all (fun item =>
        match item with
        | .obj ikvs => !(hasKey ikvs "id") || pyHashable (jIndex ikvs "id")
        | _ => true) = true) :
    ∃ items2, rewriteBedItems bedm items = .ok items2 := by
  induction items with
  | nil => exact ⟨[], rfl⟩
  | cons item rest ih =>
    rw [List.all_cons, Bool.and_eq_true] at h
    obtain ⟨hhead, htail⟩ := h
    obtain ⟨rest2, hrest⟩ := ih htail
    have hone : ∃ item2, rewriteBedItem bedm item = .ok item2 := by
      cases item with
      | obj ikvs =>
        unfold rewriteBedItem
        simp only at hhead ⊢
        by_cases hk : hasKey ikvs "id" = true
        · rw [if_pos hk]
          simp only [hk, Bool.not_true, Bool.false_or] at hhead
          rw [if_pos hhead]
          cases pyMapGet bedm (jIndex ikvs "id") with
          | none => exact ⟨_, rfl⟩
          | some newId => exact ⟨_, rfl⟩
        · rw [if_neg hk]
          exact ⟨_, rfl⟩
      | null => exact ⟨_, rfl⟩
      | bool b => exact ⟨_, rfl⟩
      | num q => exact ⟨_, rfl⟩
      | str s => exact ⟨_, rfl⟩
      | arr xs => exact ⟨_, rfl⟩
    obtain ⟨item2, hitem⟩ := hone
    refine ⟨item2 :: rest2, ?_⟩
    unfold rewriteBedItems
    rw [hitem]
    simp only [Bind.bind, Except.instMonad, Except.bind]
    rw [hrest]

theorem importLayout_export (uid : Nat) (bedm : PyMap) (nid : Nat) (now : String)
    (idv uidv lmv v : JValue) (hok : layoutContentOK v = true) :
    ∃ ls nid2, importLayout uid bedm
      (.obj [("id", idv), ("user_id", uidv), ("layout", v), ("last_modified", lmv)])
      nid now = .ok (ls, nid2) := by
  unfold importLayout
  have htr : pyTruthy (JValue.obj
      [("id", idv), ("user_id", uidv), ("layout", v), ("last_modified", lmv)]) = true := by
    simp [pyTruthy]
  rw [if_pos htr]
  simp only [Bind.bind, Except.instMonad, Except.bind, jAsObjE]
  have hget : jGetD [("id", idv), ("user_id", uidv), ("layout", v), ("last_modified", lmv)]
      "layout" JValue.null = v := by
    simp [jGetD, jLookup]
  rw [hget]
  cases v with
  | obj content =>
    unfold layoutContentOK at hok
    simp only at hok ⊢
    cases hbeds : jLookup content "beds" with
    | none => exact ⟨_, _, rfl⟩
    | some w =>
      rw [hbeds] at hok
      cases w with
      | arr items =>
        simp only at hok
        obtain ⟨items2, hitems⟩ := rewriteBedItems_ok bedm items hok
        simp only
        rw [hitems]
        exact ⟨_, _, rfl⟩
      | null => exact ⟨_, _, rfl⟩
      | bool b => exact ⟨_, _, rfl⟩
      | num q => exact ⟨_, _, rfl⟩
      | str s => exact ⟨_, _, rfl⟩
      | obj kvs2 => exact ⟨_, _, rfl⟩
  | null => exact ⟨_, _, rfl⟩
  | bool b => exact ⟨_, _, rfl⟩
  | num q => exact ⟨_, _, rfl⟩
  | str s => exact ⟨_, _, rfl⟩
  | arr xs => exact ⟨_, _, rfl⟩

theorem export_user_data_inv (st1 : DBState) (uid1 : Nat) (doc : List (String × JValue))
    (h : export_user_data st1 uid1 = .ok doc) :
    ∃ user1 layV, findUser st1 uid1 = some user1 ∧
      doc = [("user_preferences", .obj [("preferred_units", .str user1.preferred_units)]),
             ("plant_types", .arr (st1.plant_types.map ptToDict)),
             ("garden_beds", .arr ((bedsOf st1 uid1).map bedToDict)),
             ("plantings", .arr ((plantingsOf st1 uid1).map (plantingToDict st1.plant_types))),
             ("garden_layout", layV)] ∧
      (layV = .obj [] ∨ ∃ l v, layoutOf st1 uid1 = some l ∧ l.layout_json = some v ∧
        layV = .obj [("id", .num l.id), ("user_id", .num l.user_id), ("layout", v),
                     ("last_modified", .str l.last_modified)]) := by
  unfold export_user_data at h
  cases hu : findUser st1 uid1 with
  | none => rw [hu] at h; simp at h
  | some user1 =>
    rw [hu] at h
    simp only [Bind.bind, Except.instMonad, Except.bind] at h
    cases hl : layoutOf st1 uid1 with
    | none =>
      rw [hl] at h
      simp at h
      exact ⟨user1, .obj [], rfl, h.symm, Or.inl rfl⟩
    | some l =>
      rw [hl] at h
      simp only at h
      cases hlj : l.layout_json with
      | none => rw [layoutToDict, hlj] at h; simp at h
      | some v =>
        rw [layoutToDict, hlj] at h
        simp at h
        exact ⟨user1, _, rfl, h.symm, Or.inr ⟨l, v, rfl, hlj, rfl⟩⟩

/-- C2: exporting a user dataset and importing the produced document into a
fresh account (same global plant types, no beds, planting ids within the
allocation counter, truthy plant-type names, resolvable plant-type
references, valid planting dates, and a well-formed stored layout)
succeeds and reproduces the same number of garden beds, plantings and
plant types, with every imported planting referring to a bed and a plant
type that exist after the import. -/
theorem export_import_round_trip
    (st1 : DBState) (uid1 : Nat) (st2 : DBState) (uid2 : Nat) (user2 : UserRec)
    (doc : List (String × JValue))
    (hexp : export_user_data st1 uid1 = .ok doc)
    (hu2 : findUser st2 uid2 = some user2)
    (hsame : st2.plant_types = st1.plant_types)
    (hfresh : bedsOf st2 uid2 = [])
    (hw2b : ∀ p ∈ st2.plantings, p.bed_id < st2.next_bed_id)
    (hnames : ∀ pt ∈ st1.plant_types, pyTruthy pt.common_name = true)
    (hptids : ∀ p ∈ plantingsOf st1 uid1,
      p.plant_type_id ∈ st1.plant_types.map (fun x => x.id))
    (hdates : ∀ p ∈ plantingsOf st1 uid1, ∀ d, p.date_planted = some d → validCalDate d = true)
    (hlayout : ∀ l, layoutOf st1 uid1 = some l → ∀ v, l.layout_json = some v →
      layoutContentOK v = true) :
    (import_user_data st2 uid2 doc).fst = .ok ∧
    (bedsOf (import_user_data st2 uid2 doc).snd uid2).length = (bedsOf st1 uid1).length ∧
    (plantingsOf (import_user_data st2 uid2 doc).snd uid2).length =
      (plantingsOf st1 uid1).length ∧
    (import_user_data st2 uid2 doc).snd.plant_types.length = st1.plant_types.length ∧
    (∀ p ∈ plantingsOf (import_user_data st2 uid2 doc).snd uid2,
      (∃ gb ∈ (import_user_data st2 uid2 doc).snd.garden_beds, gb.id = p.bed_id) ∧
      (∃ pt ∈ (import_user_data st2 uid2 doc).snd.plant_types, pt.id = p.plant_type_id)) := by
  obtain ⟨user1, layV, hu1, hdoc, hlayV⟩ := export_user_data_inv st1 uid1 doc hexp
  subst hdoc
  obtain ⟨pts2, ptMap, hptrun, hptids2, hptnames2, hptlen2, hptmem, hptgrow, hptcover⟩ :=
    importPlantTypes_export st1.plant_types st2.plant_types [] st2.next_plant_type_id
      hnames (fun pt hpt => by rw [hsame]; exact List.mem_map.mpr ⟨pt, hpt, rfl⟩)
  obtain ⟨newBeds, bedMap, hbedrun, hbedlen, hbedgrow, hbedcover⟩ :=
    importGardenBeds_export (bedsOf st1 uid1) uid2 user2 [] st2.next_bed_id st2.now
  obtain ⟨hnle, hbedprops, hbedmapmem⟩ :=
    importGardenBeds_shape uid2 user2 ((bedsOf st1 uid1).map bedToDict) [] st2.next_bed_id
      st2.now newBeds bedMap _ hbedrun
  have hplpt : ∀ p ∈ plantingsOf st1 uid1,
      (pyMapGet ptMap (.num p.plant_type_id)).isSome = true := by
    intro p hp
    have hid := hptids p hp
    rw [List.mem_map] at hid
    obtain ⟨ptrec, hptrec, hptideq⟩ := hid
    rw [← hptideq]
    exact hptcover ptrec hptrec
  have hplbed : ∀ p ∈ plantingsOf st1 uid1,
      (pyMapGet bedMap (.num p.bed_id)).isSome = true := by
    intro p hp
    unfold plantingsOf at hp
    rw [List.mem_filter] at hp
    obtain ⟨hpmem, hpjoin⟩ := hp
    rw [List.any_eq_true] at hpjoin
    obtain ⟨gb, hgb, hcond⟩ := hpjoin
    simp only [Bool.and_eq_true, beq_iff_eq] at hcond
    have hgbmem : gb ∈ bedsOf st1 uid1 := by
      unfold bedsOf
      rw [List.mem_filter]
      exact ⟨hgb, by simp [hcond.2]⟩
    rw [hcond.1]
    exact hbedcover gb hgbmem
  obtain ⟨newPl, hplrun, hpllen⟩ :=
    importPlantings_export st1.plant_types (plantingsOf st1 uid1) ptMap bedMap
      st2.next_planting_id hplpt hplbed hdates
  have hlayok : ∃ ls nid2,
      importLayout uid2 bedMap layV st2.next_layout_id st2.now = .ok (ls, nid2) := by
    rcases hlayV with h | ⟨l, v, hlf, hlj, hveq⟩
    · subst h
      exact ⟨[], st2.next_layout_id, by simp [importLayout, pyTruthy]⟩
    · subst hveq
      exact importLayout_export uid2 bedMap st2.next_layout_id st2.now _ _ _ v
        (hlayout l hlf v hlj)
  obtain ⟨newLs, nextL, hlayrun⟩ := hlayok
  have hbody : importBody st2 uid2 user2
      [("user_preferences", .obj [("preferred_units", .str user1.preferred_units)]),
       ("plant_types", .arr (st1.plant_types.map ptToDict)),
       ("garden_beds", .arr ((bedsOf st1 uid1).map bedToDict)),
       ("plantings", .arr ((plantingsOf st1 uid1).map (plantingToDict st1.plant_types))),
       ("garden_layout", layV)] = .ok
      { st2 with
        plant_types := pts2,
        garden_beds := st2.garden_beds.filter (fun gb => !(gb.user_id == uid2)) ++ newBeds,
        plantings := st2.plantings.filter
          (fun p => !(((plantingsOf st2 uid2).map (fun q => q.id)).contains p.id)) ++ newPl,
        layouts := st2.layouts.filter (fun l => !(l.user_id == uid2)) ++ newLs,
        next_plant_type_id := st2.next_plant_type_id,
        next_bed_id := st2.next_bed_id + (bedsOf st1 uid1).length,
        next_planting_id := st2.next_planting_id + (plantingsOf st1 uid1).length,
        next_layout_id := nextL } := by
    unfold importBody
    have hd1 : jGetD
        [("user_preferences", JValue.obj [("preferred_units", .str user1.preferred_units)]),
         ("plant_types", .arr (st1.plant_types.map ptToDict)),
         ("garden_beds", .arr ((bedsOf st1 uid1).map bedToDict)),
         ("plantings", .arr ((plantingsOf st1 uid1).map (plantingToDict st1.plant_types))),
         ("garden_layout", layV)] "plant_types" (.arr []) =
        .arr (st1.plant_types.map ptToDict) := by
      simp [jGetD, jLookup]
    have hd2 : jGetD
        [("user_preferences", JValue.obj [("preferred_units", .str user1.preferred_units)]),
         ("plant_types", .arr (st1.plant_types.map ptToDict)),
         ("garden_beds", .arr ((bedsOf st1 uid1).map bedToDict)),
         ("plantings", .arr ((plantingsOf st1 uid1).map (plantingToDict st1.plant_types))),
         ("garden_layout", layV)] "garden_beds" (.arr []) =
        .arr ((bedsOf st1 uid1).map bedToDict) := by
      simp [jGetD, jLookup]
    have hd3 : jGetD
        [("user_preferences", JValue.obj [("preferred_units", .str user1.preferred_units)]),
         ("plant_types", .arr (st1.plant_types.map ptToDict)),
         ("garden_beds", .arr ((bedsOf st1 uid1).map bedToDict)),
         ("plantings", .arr ((plantingsOf st1 uid1).map (plantingToDict st1.plant_types))),
         ("garden_layout", layV)] "plantings" (.arr []) =
        .arr ((plantingsOf st1 uid1).map (plantingToDict st1.plant_types)) := by
      simp [jGetD, jLookup]
    have hd4 : jGetD
        [("user_preferences", JValue.obj [("preferred_units", .str user1.preferred_units)]),
         ("plant_types", .arr (st1.plant_types.map ptToDict)),
         ("garden_beds", .arr ((bedsOf st1 uid1).map bedToDict)),
         ("plantings", .arr ((plantingsOf st1 uid1).map (plantingToDict st1.plant_types))),
         ("garden_layout", layV)] "garden_layout" JValue.null = layV := by
      simp [jGetD, jLookup]
    rw [hd1, hd2, hd3, hd4]
    simp only [Bind.bind, Except.instMonad, Except.bind, jIterE]
    rw [hptrun]
    simp only
    rw [hbedrun]
    simp only
    rw [hplrun]
    simp only
    rw [hlayrun]
  have hkeys : expectedImportKeys.all (fun k => hasKey
      [("user_preferences", JValue.obj [("preferred_units", .str user1.preferred_units)]),
       ("plant_types", .arr (st1.plant_types.map ptToDict)),
       ("garden_beds", .arr ((bedsOf st1 uid1).map bedToDict)),
       ("plantings", .arr ((plantingsOf st1 uid1).map (plantingToDict st1.plant_types))),
       ("garden_layout", layV)] k) = true := by
    simp [expectedImportKeys, hasKey, jLookup]
  have hmain : import_user_data st2 uid2
      [("user_preferences", .obj [("preferred_units", .str user1.preferred_units)]),
       ("plant_types", .arr (st1.plant_types.map ptToDict)),
       ("garden_beds", .arr ((bedsOf st1 uid1).map bedToDict)),
       ("plantings", .arr ((plantingsOf st1 uid1).map (plantingToDict st1.plant_types))),
       ("garden_layout", layV)] = (.ok,
      { st2 with
        plant_types := pts2,
        garden_beds := st2.garden_beds.filter (fun gb => !(gb.user_id == uid2)) ++ newBeds,
        plantings := st2.plantings.filter
          (fun p => !(((plantingsOf st2 uid2).map (fun q => q.id)).contains p.id)) ++ newPl,
        layouts := st2.layouts.filter (fun l => !(l.user_id == uid2)) ++ newLs,
        next_plant_type_id := st2.next_plant_type_id,
        next_bed_id := st2.next_bed_id + (bedsOf st1 uid1).length,
        next_planting_id := st2.next_planting_id + (plantingsOf st1 uid1).length,
        next_layout_id := nextL }) := by
    unfold import_user_data
    rw [hu2]
    simp only
    rw [if_pos hkeys, hbody]
  rw [hmain]
  dsimp only
  -- the fresh account has no plantings joined through its (absent) beds
  have hfreshpl : plantingsOf st2 uid2 = [] := by
    unfold plantingsOf
    rw [List.filter_eq_nil_iff]
    intro p _ hc
    rw [List.any_eq_true] at hc
    obtain ⟨gb, hgb, hcond⟩ := hc
    simp only [Bool.and_eq_true, beq_iff_eq] at hcond
    have : gb ∈ bedsOf st2 uid2 := by
      unfold bedsOf
      rw [List.mem_filter]
      exact ⟨hgb, by simp [hcond.2]⟩
    rw [hfresh] at this
    simp at this
  have hdel : st2.plantings.filter
      (fun p => !(((plantingsOf st2 uid2).map (fun q => q.id)).contains p.id)) =
      st2.plantings := by
    rw [hfreshpl]
    simp
  -- the user's beds after import are exactly the fresh beds
  have hbeds2 : (st2.garden_beds.filter (fun gb => !(gb.user_id == uid2)) ++ newBeds).filter
      (fun gb => gb.user_id == uid2) = newBeds := by
    rw [List.filter_append]
    have h1 : (st2.garden_beds.filter (fun gb => !(gb.user_id == uid2))).filter
        (fun gb => gb.user_id == uid2) = [] := by
      rw [List.filter_eq_nil_iff]
      intro gb hgb hc
      rw [List.mem_filter] at hgb
      rw [hc] at hgb
      simp at hgb
    have h2 : newBeds.filter (fun gb => gb.user_id == uid2) = newBeds := by
      rw [List.filter_eq_self]
      intro gb hgb
      simp [(hbedprops gb hgb).1]
    rw [h1, h2, List.nil_append]
  -- the user's joined plantings after import are exactly the fresh plantings
  have hpl2 : plantingsOf
      { st2 with
        plant_types := pts2,
        garden_beds := st2.garden_beds.filter (fun gb => !(gb.user_id == uid2)) ++ newBeds,
        plantings := st2.plantings.filter
          (fun p => !(((plantingsOf st2 uid2).map (fun q => q.id)).contains p.id)) ++ newPl,
        layouts := st2.layouts.filter (fun l => !(l.user_id == uid2)) ++ newLs,
        next_plant_type_id := st2.next_plant_type_id,
        next_bed_id := st2.next_bed_id + (bedsOf st1 uid1).length,
        next_planting_id := st2.next_planting_id + (plantingsOf st1 uid1).length,
        next_layout_id := nextL } uid2 = newPl := by
    unfold plantingsOf at hdel
    unfold plantingsOf
    dsimp only
    rw [hdel, List.filter_append]
    have h1 : st2.plantings.filter (fun p =>
        (st2.garden_beds.filter (fun gb => !(gb.user_id == uid2)) ++ newBeds).any
          (fun gb => p.bed_id == gb.id && gb.user_id == uid2)) = [] := by
      rw [List.filter_eq_nil_iff]
      intro p hp hc
      rw [List.any_eq_true] at hc
      obtain ⟨gb, hgb, hcond⟩ := hc
      simp only [Bool.and_eq_true, beq_iff_eq] at hcond
      rcases List.mem_append.mp hgb with h3 | h3
      · rw [List.mem_filter] at h3
        have := h3.2
        rw [hcond.2] at this
        simp at this
      · have := (hbedprops gb h3).2.1
        have hplt := hw2b p hp
        omega
    have h2 : newPl.filter (fun p =>
        (st2.garden_beds.filter (fun gb => !(gb.user_id == uid2)) ++ newBeds).any
          (fun gb => p.bed_id == gb.id && gb.user_id == uid2)) = newPl := by
      rw [List.filter_eq_self]
      intro p hp
      obtain ⟨_, hbedref⟩ :=
        importPlantings_shape ptMap bedMap ((plantingsOf st1 uid1).map (plantingToDict st1.plant_types))
          st2.next_planting_id newPl _ hplrun p hp
      obtain ⟨kv, hkv, hkveq⟩ := hbedref
      rcases hbedmapmem kv hkv with hfalse | ⟨gb, hgb, hgbid⟩
      · simp at hfalse
      · rw [List.any_eq_true]
        refine ⟨gb, List.mem_append_right _ hgb, ?_⟩
        simp only [Bool.and_eq_true, beq_iff_eq]
        exact ⟨by rw [← hkveq, hgbid], (hbedprops gb hgb).1⟩
    rw [h1, h2, List.nil_append]
  have hbeds1eq : bedsOf
      { st2 with
        plant_types := pts2,
        garden_beds := st2.garden_beds.filter (fun gb => !(gb.user_id == uid2)) ++ newBeds,
        plantings := st2.plantings.filter
          (fun p => !(((plantingsOf st2 uid2).map (fun q => q.id)).contains p.id)) ++ newPl,
        layouts := st2.layouts.filter (fun l => !(l.user_id == uid2)) ++ newLs,
        next_plant_type_id := st2.next_plant_type_id,
        next_bed_id := st2.next_bed_id + (bedsOf st1 uid1).length,
        next_planting_id := st2.next_planting_id + (plantingsOf st1 uid1).length,
        next_layout_id := nextL } uid2 = newBeds := by
    unfold bedsOf
    dsimp only
    exact hbeds2
  refine ⟨rfl, ?_, ?_, ?_, ?_⟩
  · rw [hbeds1eq, hbedlen]
  · rw [hpl2, hpllen]
  · rw [hptlen2, hsame]
  · intro p hp
    rw [hpl2] at hp
    constructor
    · obtain ⟨_, hbedref⟩ :=
        importPlantings_shape ptMap bedMap ((plantingsOf st1 uid1).map (plantingToDict st1.plant_types))
          st2.next_planting_id newPl _ hplrun p hp
      obtain ⟨kv, hkv, hkveq⟩ := hbedref
      rcases hbedmapmem kv hkv with hfalse | ⟨gb, hgb, hgbid⟩
      · simp at hfalse
      · exact ⟨gb, List.mem_append_right _ hgb, by rw [hgbid, hkveq]⟩
    · obtain ⟨hptref, _⟩ :=
        importPlantings_shape ptMap bedMap ((plantingsOf st1 uid1).map (plantingToDict st1.plant_types))
          st2.next_planting_id newPl _ hplrun p hp
      obtain ⟨kv, hkv, hkveq⟩ := hptref
      rcases hptmem kv hkv with hfalse | hmem
      · simp at hfalse
      · rw [← hptids2] at hmem
        rw [List.mem_map] at hmem
        obtain ⟨ptrec, hptrec, hptid⟩ := hmem
        exact ⟨ptrec, hptrec, by rw [hptid, hkveq]⟩


theorem export_import_round_trip_witness :
    export_user_data c2State1 1 = .ok c2Doc ∧
    bedsOf c2State2 2 = [] ∧
    (import_user_data c2State2 2 c2Doc).fst = .ok ∧
    (bedsOf (import_user_data c2State2 2 c2Doc).snd 2).length =
      (bedsOf c2State1 1).length ∧
    (plantingsOf (import_user_data c2State2 2 c2Doc).snd 2).length =
      (plantingsOf c2State1 1).length ∧
    (import_user_data c2State2 2 c2Doc).snd.plant_types.length =
      c2State1.plant_types.length ∧
    (∀ p ∈ plantingsOf (import_user_data c2State2 2 c2Doc).snd 2,
      (∃ gb ∈ (import_user_data c2State2 2 c2Doc).snd.garden_beds, gb.id = p.bed_id) ∧
      (∃ pt ∈ (import_user_data c2State2 2 c2Doc).snd.plant_types,
        pt.id = p.plant_type_id)) := by
  have h := export_import_round_trip c2State1 1 c2State2 2 ⟨2, "b@example.com", "metric"⟩
    c2Doc (by decide) (by decide) (by decide) (by decide) (by decide) (by decide)
    (by decide)
    (by
      intro p hp d hd
      have hl : plantingsOf c2State1 1 =
          [⟨1, 1, 1, .null, .null, some ⟨2024, 5, 1⟩, some ⟨2024, 9, 1⟩, .null,
            true, .null⟩] := by decide
      rw [hl, List.mem_singleton] at hp
      subst hp
      have h2 : some (⟨2024, 5, 1⟩ : CalDate) = some d := hd
      injection h2 with h3
      rw [← h3]
      decide)
    (by
      intro l hl v hv
      have hl2 : some (⟨1, 1, some c2Layout, "t0"⟩ : GardenLayoutRec) = some l := hl
      injection hl2 with hl3
      rw [← hl3] at hv
      have hv2 : some c2Layout = some v := hv
      injection hv2 with hv3
      rw [← hv3]
      decide)
  exact ⟨by decide, by decide, h.1, h.2.1, h.2.2.1, h.2.2.2.1, h.2.2.2.2⟩

end GardenApp
